import Mathlib

/-!
Verification development for the APN telemetry backend.

The definitions below are a shallow embedding of the backend's JavaScript
source: the MQTT service (message classification and the error handler),
the telemetry router and its per-type ingestion handlers from server.js,
the WebSocket live-connection registry, the device pairing and alert
archiving routes, and the push-notification dispatcher.  Stateful code is
modelled by explicit state passing over a record of database tables;
fallible storage operations consult an explicit oracle of success bits,
mirroring the per-call error checks in the source.
-/

namespace APN

/-! ## JavaScript value model

Payload fields arrive as decoded JSON.  `JsVal` models the JSON values a
field can hold, and `JsVal.truthy` models JavaScript truthiness
(`undefined` is modelled by `Option.none` at the field level). -/

inductive JsVal where
  | str (s : String)
  | num (n : Int)
  | bool (b : Bool)
  | null
  | arr
  | obj
  deriving DecidableEq, Repr

/-- JavaScript truthiness of a JSON value: empty string, zero, `false` and
`null` are falsy; arrays and objects are always truthy. -/
def JsVal.truthy : JsVal → Bool
  | .str s => !(s == "")
  | .num n => !(n == 0)
  | .bool b => b
  | .null => false
  | .arr => true
  | .obj => true

/-- Truthiness of a possibly-absent field (`undefined` is falsy). -/
def truthyO : Option JsVal → Bool
  | none => false
  | some v => v.truthy

/-! ## MQTTService._determineMessageType -/

/-- The fields of a decoded MQTT payload inspected by the classifier
(`MQTTService._determineMessageType`).  A field that is absent from the
JSON object is `none`. -/
structure MsgPayload where
  alert : Option JsVal := none
  status : Option JsVal := none
  power : Option JsVal := none
  water : Option JsVal := none
  gas : Option JsVal := none
  temperature : Option JsVal := none
  gyro : Option JsVal := none
  medicine_name : Option JsVal := none
  schedule_id : Option JsVal := none
  deriving DecidableEq, Repr

/-- Embedding of `MQTTService._determineMessageType` (services/mqtt.js):
`if (payload.alert) return 'alert'; if (payload.status === 'ALERT_CLEARED')
return 'alert_cleared'; if (payload.power) return 'power_status';
if (payload.water || payload.gas !== undefined || payload.temperature ||
payload.gyro) return 'sensor_reading'; if (payload.medicine_name ||
payload.schedule_id) return 'medication'; return 'unknown';` -/
def determineMessageType (p : MsgPayload) : String :=
  if truthyO p.alert then "alert"
  else if p.status == some (.str "ALERT_CLEARED") then "alert_cleared"
  else if truthyO p.power then "power_status"
  else if truthyO p.water || !(p.gas == none) || truthyO p.temperature || truthyO p.gyro then
    "sensor_reading"
  else if truthyO p.medicine_name || truthyO p.schedule_id then "medication"
  else "unknown"

/-! ## MQTTService error handler -/

/-- The state of the MQTT client that the `error` handler reads and
writes: the connected flag and the number of registered `error`
listeners (`this.listenerCount('error')`). -/
structure MqttState where
  isConnected : Bool
  errorListeners : Nat
  deriving DecidableEq, Repr

/-- Observable actions of the MQTT error handler. -/
inductive MqttAction where
  | emitError (msg : Option String)
  deriving DecidableEq, Repr

/-- `charsPrefix pat l` is true when `pat` is a prefix of `l`. -/
def charsPrefix : List Char → List Char → Bool
  | [], _ => true
  | _ :: _, [] => false
  | p :: ps, c :: cs => p == c && charsPrefix ps cs

/-- `charsContains l pat` is true when `pat` occurs contiguously inside
`l`; this models JavaScript's `String.prototype.includes`. -/
def charsContains : List Char → List Char → Bool
  | [], pat => pat == []
  | l@(_ :: t), pat => charsPrefix pat l || charsContains t pat

/-- Whether an error message contains the substring checked by
`error.message.includes('Keepalive timeout')`. -/
def hasKeepaliveMarker (msg : Option String) : Bool :=
  match msg with
  | none => false
  | some s => charsContains s.toList "Keepalive timeout".toList

/-- Embedding of the `this.client.on('error', ...)` handler in
`MQTTService._setupEventHandlers` (services/mqtt.js): if the message is
truthy and contains `'Keepalive timeout'`, set `isConnected := false` and
return without emitting; otherwise emit an `error` event exactly when at
least one `error` listener is registered. -/
def mqttOnError (st : MqttState) (msg : Option String) : MqttState × List MqttAction :=
  if (match msg with
      | some s => !(s == "") && charsContains s.toList "Keepalive timeout".toList
      | none => false) then
    ({ st with isConnected := false }, [])
  else if 0 < st.errorListeners then
    (st, [.emitError msg])
  else
    (st, [])

/-! ## Database row model (schema.sql) and server.js payloads -/

/-- A row of the `devices` table (row `id` modelled as a natural). -/
structure Device where
  id : Nat
  device_id : String
  user_id : String
  name : String
  is_active : Bool
  paired_at : String
  deriving DecidableEq, Repr

/-- A row of the `alerts` table.  `alert_type` is an `Option` because the
alert handler copies `payload.alert` into the row as-is. -/
structure Alert where
  id : Nat
  device_id : String
  user_id : String
  alert_type : Option String
  sensor : Option String
  value : Option Int
  is_active : Bool
  cleared_at : Option String
  received_at : String
  deriving DecidableEq, Repr

/-- A row of the `sensor_readings` table. -/
structure SensorReading where
  device_id : String
  user_id : String
  water_1 : Option Int
  water_2 : Option Int
  water_3 : Option Int
  water_4 : Option Int
  gas_detected : Option Bool
  temp_1 : Option Int
  temp_2 : Option Int
  movement : Option Int
  power_status : Option String
  received_at : String
  deriving DecidableEq, Repr

/-- A row of the `archived_alerts` table. -/
structure ArchivedAlert where
  id : Nat
  device_id : String
  user_id : String
  alert_type : Option String
  sensor : Option String
  value : Option Int
  is_active : Bool
  cleared_at : Option String
  received_at : String
  archived_at : String
  deriving DecidableEq, Repr

/-- A row of the `push_tokens` table. -/
structure PushToken where
  user_id : String
  expo_push_token : String
  deriving DecidableEq, Repr

/-- The database tables touched by the embedded code, with counters
supplying fresh row ids. -/
structure DB where
  devices : List Device := []
  alerts : List Alert := []
  sensor_readings : List SensorReading := []
  archived_alerts : List ArchivedAlert := []
  push_tokens : List PushToken := []
  nextAlertId : Nat := 0
  nextDeviceId : Nat := 0
  deriving DecidableEq, Repr

/-- The payload fields read by the server.js ingestion handlers.  Absent
fields are `none`; numeric values are modelled as integers. -/
structure Payload where
  alert : Option String := none
  alertType : Option String := none
  sensor : Option String := none
  value : Option Int := none
  status : Option String := none
  water : Option (List Int) := none
  gas : Option Int := none
  temperatureTemp1 : Option Int := none
  temperatureTemp2 : Option Int := none
  hasTemperatureObj : Bool := false
  temp_1 : Option Int := none
  temp_2 : Option Int := none
  gyroMovement : Option Int := none
  hasGyroObj : Bool := false
  movement : Option Int := none
  power : Option String := none
  deriving DecidableEq, Repr

/-- The telemetry envelope destructured by `handleTelemetry` and
re-assembled for `websocketService.sendToUser`. -/
structure Envelope where
  deviceId : String
  messageType : String
  payload : Payload
  receivedAt : String
  deriving DecidableEq, Repr

/-- Observable side effects of the ingestion path: storage-insert
attempts, the live forward to the WebSocket registry, and (never emitted
by any embedded server.js function) an invocation of the push
notification dispatcher. -/
inductive Effect where
  | insertAlertRow (a : Alert)
  | insertReadingRow (r : SensorReading)
  | sendToUser (userId : String) (env : Envelope)
  | pushDispatch (userId : String) (alertId : Nat)
  deriving DecidableEq, Repr

/-- Whether an effect is a sensor-reading insert attempt. -/
def Effect.isReadingInsert : Effect → Bool
  | .insertReadingRow _ => true
  | _ => false

/-- Whether an effect is an invocation of the push-notification
dispatcher. -/
def Effect.isPushDispatch : Effect → Bool
  | .pushDispatch _ _ => true
  | _ => false

/-- Success bits for the storage operations issued by `handleAlert`. -/
structure AlertOracle where
  alertInsertOk : Bool := true
  gasReadingInsertOk : Bool := true
  deriving DecidableEq, Repr

/-- Success bits for the storage operations issued by
`handleSensorReading`: the reading insert, and the existence check and
alert insert for each of the two zones. -/
structure SROracle where
  readingInsertOk : Bool := true
  check1Ok : Bool := true
  insert1Ok : Bool := true
  check2Ok : Bool := true
  insert2Ok : Bool := true
  deriving DecidableEq, Repr

/-- Success bits for all storage operations of one `handleTelemetry`
run. -/
structure TelOracle where
  deviceLookupOk : Bool := true
  alertO : AlertOracle := {}
  clearUpdateOk : Bool := true
  srO : SROracle := {}
  powerInsertOk : Bool := true
  deriving DecidableEq, Repr

/-- JavaScript `a || b` on an optional string (`some ""` is falsy). -/
def jsStrOr (a b : Option String) : Option String :=
  match a with
  | some s => if s == "" then b else some s
  | none => b

/-- JavaScript `x || null` on an optional string. -/
def jsStrOrNull (a : Option String) : Option String :=
  jsStrOr a none

/-- JavaScript `x || null` on an optional number (`some 0` is falsy). -/
def jsNumOrNull (a : Option Int) : Option Int :=
  match a with
  | some n => if n == 0 then none else some n
  | none => none

/-! ## server.js ingestion handlers -/

/-- Embedding of `handleAlert` (server.js): insert an active alert row
from the payload; when the insert succeeds and the type is
`GAS_LEAK_DETECTED`, additionally insert a synthetic sensor reading with
only the gas flag set. -/
def handleAlert (db : DB) (o : AlertOracle) (deviceId userId : String)
    (payload : Payload) (receivedAt : String) : DB × List Effect :=
  let alertRow : Alert :=
    { id := db.nextAlertId
      device_id := deviceId
      user_id := userId
      alert_type := payload.alert
      sensor := jsStrOrNull payload.sensor
      value := payload.value
      is_active := true
      cleared_at := none
      received_at := receivedAt }
  if !o.alertInsertOk then (db, [.insertAlertRow alertRow])
  else
    let db1 := { db with alerts := db.alerts ++ [alertRow], nextAlertId := db.nextAlertId + 1 }
    if payload.alert == some "GAS_LEAK_DETECTED" then
      let gasReading : SensorReading :=
        { device_id := deviceId
          user_id := userId
          water_1 := none, water_2 := none, water_3 := none, water_4 := none
          gas_detected := some true
          temp_1 := none, temp_2 := none
          movement := none
          power_status := none
          received_at := receivedAt }
      if o.gasReadingInsertOk then
        ({ db1 with sensor_readings := db1.sensor_readings ++ [gasReading] },
          [.insertAlertRow alertRow, .insertReadingRow gasReading])
      else (db1, [.insertAlertRow alertRow, .insertReadingRow gasReading])
    else (db1, [.insertAlertRow alertRow])

/-- The row predicate of the `update` in `handleAlertCleared`: device,
user and active always; alert type and sensor only when the
corresponding (truthy) filter value is present. -/
def clearMatches (deviceId userId : String) (alertType sensor : Option String)
    (a : Alert) : Bool :=
  a.device_id == deviceId && a.user_id == userId && a.is_active
    && (match alertType with
        | some t => if t == "" then true else a.alert_type == some t
        | none => true)
    && (match sensor with
        | some s => if s == "" then true else a.sensor == some s
        | none => true)

/-- Embedding of `handleAlertCleared` (server.js): mark all active alerts
of this device and user inactive, narrowing by alert type and by sensor
when those payload fields are truthy. -/
def handleAlertCleared (db : DB) (updateOk : Bool) (deviceId userId : String)
    (payload : Payload) (receivedAt : String) : DB × List Effect :=
  let alertType := jsStrOr payload.alert payload.alertType
  let sensor := jsStrOrNull payload.sensor
  if !updateOk then (db, [])
  else
    ({ db with alerts := db.alerts.map (fun a =>
        if clearMatches deviceId userId alertType sensor a then
          { a with is_active := false, cleared_at := some receivedAt }
        else a) },
      [])

/-- `payload.water?.[i] || 0`: the i-th raw water magnitude, defaulting
to zero when the array or the element is absent. -/
def waterMag (payload : Payload) (i : Nat) : Int :=
  (payload.water.getD []).getD i 0

/-- Zone 1 detection: either of the magnitudes at indices 0 and 1
strictly exceeds the fixed threshold 500. -/
def zone1det (payload : Payload) : Bool :=
  waterMag payload 0 > 500 || waterMag payload 1 > 500

/-- Zone 2 detection: either of the magnitudes at indices 2 and 3
strictly exceeds the fixed threshold 500. -/
def zone2det (payload : Payload) : Bool :=
  waterMag payload 2 > 500 || waterMag payload 3 > 500

/-- The sensor-reading row built by `handleSensorReading` before it is
inserted: zone booleans from thresholding the four water magnitudes, and
the nested-or-flat fallbacks for temperature and movement. -/
def buildSensorReading (deviceId userId : String) (payload : Payload)
    (receivedAt : String) : SensorReading :=
  let movementValue : Option Int :=
    if payload.hasGyroObj && !(payload.gyroMovement == none) then payload.gyroMovement
    else jsNumOrNull payload.movement
  let temp1 : Option Int :=
    if payload.hasTemperatureObj && !(payload.temperatureTemp1 == none) then payload.temperatureTemp1
    else payload.temp_1
  let temp2 : Option Int :=
    if payload.hasTemperatureObj && !(payload.temperatureTemp2 == none) then payload.temperatureTemp2
    else payload.temp_2
  let zone1Detected : Bool := zone1det payload
  let zone2Detected : Bool := zone2det payload
  { device_id := deviceId
    user_id := userId
    water_1 := some (if zone1Detected then 1 else 0)
    water_2 := some (if zone1Detected then 1 else 0)
    water_3 := some (if zone2Detected then 1 else 0)
    water_4 := some (if zone2Detected then 1 else 0)
    gas_detected := payload.gas.map (fun g => !(g == 0))
    temp_1 := temp1
    temp_2 := temp2
    movement := movementValue
    power_status := jsStrOrNull payload.power
    received_at := receivedAt }

/-- The alert-existence predicate used by the per-zone duplicate check in
`handleSensorReading`: device, user, type `WATER_DETECTED`, the zone's
sensor label, and active. -/
def waterKey (deviceId userId zone : String) (a : Alert) : Bool :=
  a.device_id == deviceId && a.user_id == userId
    && a.alert_type == some "WATER_DETECTED" && a.sensor == some zone && a.is_active

/-- One iteration of the per-zone water-alert loop in
`handleSensorReading`: when the zone is detected, query for an existing
active alert with `maybeSingle` semantics (an error or an existing row
skips the insert) and insert a fresh active alert only when none exists. -/
def waterAlertStep (db : DB) (checkOk insertOk : Bool) (deviceId userId zone : String)
    (detected : Bool) (receivedAt : String) : DB × List Effect :=
  if !detected then (db, [])
  else if !checkOk then (db, [])
  else
    match db.alerts.filter (waterKey deviceId userId zone) with
    | [] =>
      let alertRow : Alert :=
        { id := db.nextAlertId
          device_id := deviceId
          user_id := userId
          alert_type := some "WATER_DETECTED"
          sensor := some zone
          value := some 1
          is_active := true
          cleared_at := none
          received_at := receivedAt }
      if insertOk then
        ({ db with alerts := db.alerts ++ [alertRow], nextAlertId := db.nextAlertId + 1 },
          [.insertAlertRow alertRow])
      else (db, [.insertAlertRow alertRow])
    | _ => (db, [])

/-- The number of active `WATER_DETECTED` alerts for one (device, user,
zone) key. -/
def activeCount (alerts : List Alert) (deviceId userId zone : String) : Nat :=
  (alerts.filter (waterKey deviceId userId zone)).length

/-- The alert-deduplication invariant: at most one active
`WATER_DETECTED` alert per (device, user, zone) key. -/
def WaterInv (db : DB) : Prop :=
  ∀ deviceId userId zone : String, activeCount db.alerts deviceId userId zone ≤ 1


/-- Embedding of `handleSensorReading` (server.js): insert the normalized
reading (returning early on a storage error, before any alert logic),
then run the duplicate-checked water-alert creation for zone 1 and then
zone 2. -/
def handleSensorReading (db : DB) (o : SROracle) (deviceId userId : String)
    (payload : Payload) (receivedAt : String) : DB × List Effect :=
  let r := buildSensorReading deviceId userId payload receivedAt
  if !o.readingInsertOk then (db, [.insertReadingRow r])
  else
    let db1 := { db with sensor_readings := db.sensor_readings ++ [r] }
    let s1 := waterAlertStep db1 o.check1Ok o.insert1Ok deviceId userId "ZONE1"
      (zone1det payload) receivedAt
    let s2 := waterAlertStep s1.1 o.check2Ok o.insert2Ok deviceId userId "ZONE2"
      (zone2det payload) receivedAt
    (s2.1, [.insertReadingRow r] ++ s1.2 ++ s2.2)

/-- A message processed sequentially by the sensor-reading or
alert-cleared handler, with the per-run storage oracle. -/
inductive SensorOp where
  | reading (o : SROracle) (deviceId userId : String) (p : Payload) (t : String)
  | cleared (updateOk : Bool) (deviceId userId : String) (p : Payload) (t : String)

/-- Run one handler on the database. -/
def applySensorOp (db : DB) : SensorOp → DB
  | .reading o dev uid p t => (handleSensorReading db o dev uid p t).1
  | .cleared ok dev uid p t => (handleAlertCleared db ok dev uid p t).1

/-- Run a sequence of sensor-reading and alert-cleared messages. -/
def processSensorOps (db : DB) (ops : List SensorOp) : DB :=
  ops.foldl applySensorOp db

/-- Embedding of `handlePowerStatus` (server.js): insert a reading whose
only populated field is the power status. -/
def handlePowerStatus (db : DB) (insertOk : Bool) (deviceId userId : String)
    (payload : Payload) (receivedAt : String) : DB × List Effect :=
  let r : SensorReading :=
    { device_id := deviceId
      user_id := userId
      water_1 := none, water_2 := none, water_3 := none, water_4 := none
      gas_detected := none
      temp_1 := none, temp_2 := none
      movement := none
      power_status := jsStrOrNull (jsStrOr payload.power payload.status)
      received_at := receivedAt }
  if insertOk then
    ({ db with sensor_readings := db.sensor_readings ++ [r] }, [.insertReadingRow r])
  else (db, [.insertReadingRow r])

/-- The `maybeSingle` device lookup of `handleTelemetry`: exactly one
matching row yields the device; zero rows or several rows (a query
error) both lead to the discard path. -/
def lookupDevice (db : DB) (deviceId : String) : Option Device :=
  match db.devices.filter (fun d => d.device_id == deviceId) with
  | [d] => some d
  | _ => none

/-- Embedding of `handleTelemetry` (server.js): resolve the device owner;
discard the message when the lookup fails, finds no device, or finds an
inactive device; otherwise dispatch on `messageType` to the matching
ingestion handler (unknown types only log) and afterwards forward the
original envelope to the WebSocket registry for the owning user. -/
def handleTelemetry (db : DB) (o : TelOracle) (data : Envelope) : DB × List Effect :=
  if !o.deviceLookupOk then (db, [])
  else
    match lookupDevice db data.deviceId with
    | none => (db, [])
    | some device =>
      if !device.is_active then (db, [])
      else
        let userId := device.user_id
        let hres :=
          match data.messageType with
          | "alert" => handleAlert db o.alertO data.deviceId userId data.payload data.receivedAt
          | "alert_cleared" =>
            handleAlertCleared db o.clearUpdateOk data.deviceId userId data.payload data.receivedAt
          | "sensor_reading" =>
            handleSensorReading db o.srO data.deviceId userId data.payload data.receivedAt
          | "power_status" =>
            handlePowerStatus db o.powerInsertOk data.deviceId userId data.payload data.receivedAt
          | _ => (db, [])
        (hres.1, hres.2 ++ [.sendToUser userId
          { deviceId := data.deviceId
            messageType := data.messageType
            payload := data.payload
            receivedAt := data.receivedAt }])

/-! ## WebSocketService live-connection registry (services/websocket.js) -/

/-- The per-user connection map `this.clients` (`Map` of userId to a
`Set` of connections), modelled as an association list from user id to
the list of connection ids in the user's set. -/
abbrev Registry := List (String × List Nat)

/-- `this.clients.get(u)`: lookup of the first (and, for a map, only)
entry with the given key. -/
def regGet (m : Registry) (u : String) : Option (List Nat) :=
  match m with
  | [] => none
  | p :: ps => if p.1 == u then some p.2 else regGet ps u

/-- The registration step of `_handleConnection`: create the user's set
if absent, then add the connection to it. -/
def registerClient (m : Registry) (u : String) (ws : Nat) : Registry :=
  match regGet m u with
  | none => m ++ [(u, [ws])]
  | some conns => m.map (fun p => if p.1 == u then (u, conns ++ [ws]) else p)

/-- Embedding of `WebSocketService._handleDisconnection`: remove the
connection from its user's set, and delete the user's map entry when
the set becomes empty. -/
def handleDisconnection (m : Registry) (u : String) (ws : Nat) : Registry :=
  match regGet m u with
  | none => m
  | some conns =>
    let conns2 := conns.filter (fun x => !(x == ws))
    if conns2 == [] then m.filter (fun p => !(p.1 == u))
    else m.map (fun p => if p.1 == u then (u, conns2) else p)

/-- A live WebSocket connection as the heartbeat loop sees it: its id,
the authenticated user (`ws.userId`) and the liveness flag
(`ws.isAlive`). -/
structure ConnInfo where
  id : Nat
  userId : String
  isAlive : Bool
  deriving DecidableEq, Repr

/-- The WebSocket service state: the server's connection set
(`wss.clients`) and the per-user registry (`this.clients`). -/
structure WsState where
  conns : List ConnInfo := []
  clients : Registry := []
  deriving DecidableEq, Repr

/-- A connection close (graceful close, or termination by the heartbeat):
the `ws` close event removes the socket from the server's set and runs
`_handleDisconnection` for the user captured at connect time. -/
def closeConn (st : WsState) (cid : Nat) : WsState :=
  match st.conns.find? (fun c => c.id == cid) with
  | none => st
  | some c =>
    { conns := st.conns.filter (fun x => !(x.id == cid))
      clients := handleDisconnection st.clients c.userId cid }

/-- A successfully authenticated connection: `isAlive := true`, added to
the server's set and registered in the user's set. -/
def connectConn (st : WsState) (cid : Nat) (uid : String) : WsState :=
  { conns := st.conns ++ [{ id := cid, userId := uid, isAlive := true }]
    clients := registerClient st.clients uid cid }

/-- A `pong` from the peer: `ws.isAlive = true`. -/
def pongConn (st : WsState) (cid : Nat) : WsState :=
  { st with conns := st.conns.map (fun c => if c.id == cid then { c with isAlive := true } else c) }

/-- One tick of `startHeartbeat`: every connection still marked not-alive
is forcibly terminated (its close handler runs `_handleDisconnection`),
and every surviving connection is marked not-alive and pinged. -/
def heartbeatTick (st : WsState) : WsState :=
  let dead := st.conns.filter (fun c => c.isAlive == false)
  let st1 := dead.foldl (fun acc c => closeConn acc c.id) st
  { conns := st1.conns.map (fun c => { c with isAlive := false })
    clients := st1.clients }

/-- The events that mutate the registry over the server's lifetime. -/
inductive WsEvent where
  | connect (cid : Nat) (uid : String)
  | pong (cid : Nat)
  | close (cid : Nat)
  | tick
  deriving DecidableEq, Repr

/-- Event dispatch for the WebSocket service. -/
def applyWsEvent (st : WsState) : WsEvent → WsState
  | .connect cid uid => connectConn st cid uid
  | .pong cid => pongConn st cid
  | .close cid => closeConn st cid
  | .tick => heartbeatTick st

/-- A server run from the initial empty state. -/
def runWsEvents (evs : List WsEvent) : WsState :=
  evs.foldl applyWsEvent { }

/-- The registry never holds a user entry with an empty connection set. -/
def NoEmptyEntry (m : Registry) : Prop :=
  ∀ p ∈ m, p.2 ≠ []

/-! ## POST /api/telemetry/device/pair (routes/telemetry.js) -/

/-- Success bits for the storage operations of the pairing route. -/
structure PairOracle where
  lookupOk : Bool := true
  updateOk : Bool := true
  insertOk : Bool := true
  deriving DecidableEq, Repr

/-- The response classes of the pairing route: 400 for a device paired
to another account, 200 for the two idempotent owner paths, 201 for a
fresh pairing, 500 for a thrown storage error. -/
inductive PairOutcome where
  | conflict
  | okExisting (d : Device)
  | okUpdated (d : Device)
  | created (d : Device)
  | serverError
  deriving DecidableEq, Repr

/-- JavaScript `deviceId.slice(-4)`: the last four characters. -/
def sliceLast4 (s : String) : String :=
  String.mk ((s.toList.reverse.take 4).reverse)

/-- The `updateData.name` computation of the pairing route:
`if (name && name !== existingDevice.name) updateData.name = name`. -/
def pairNameUpd (d : Device) (name : Option String) : Option String :=
  match name with
  | some s => if !(s == "") && !(s == d.name) then some s else none
  | none => none

/-- The device row as the pairing route's update leaves it: the name
replaced only when `updateData.name` was set, the active flag forced to
true only when the device was inactive, every other column untouched. -/
def pairUpdatedDevice (d : Device) (name : Option String) : Device :=
  { d with
    name := (pairNameUpd d name).getD d.name
    is_active := if !d.is_active then true else d.is_active }

/-- Embedding of the `POST /device/pair` route handler: look up the
device by identifier; for a device owned by another user answer 400
without touching storage; for the owner update name/is_active only when
the supplied name is truthy and differs or the device was inactive, and
otherwise return the existing row unchanged; for an unknown identifier
insert one new row owned by the requester. -/
def pairDevice (db : DB) (o : PairOracle) (uid did : String) (name : Option String)
    (now : String) : DB × PairOutcome :=
  if !o.lookupOk then (db, .serverError)
  else
    match db.devices.filter (fun d => d.device_id == did) with
    | [] =>
      if !o.insertOk then (db, .serverError)
      else
        let nd : Device :=
          { id := db.nextDeviceId
            device_id := did
            user_id := uid
            name := match name with
              | some s => if s == "" then "Device " ++ sliceLast4 did else s
              | none => "Device " ++ sliceLast4 did
            is_active := true
            paired_at := now }
        ({ db with devices := db.devices ++ [nd], nextDeviceId := db.nextDeviceId + 1 },
          .created nd)
    | [d] =>
      if d.user_id == uid then
        if pairNameUpd d name == none && !(!d.is_active) then (db, .okExisting d)
        else if !o.updateOk then (db, .serverError)
        else
          let d2 : Device := pairUpdatedDevice d name
          ({ db with devices := db.devices.map (fun x => if x.id == d.id then d2 else x) },
            .okUpdated d2)
      else (db, .conflict)
    | _ => (db, .serverError)

/-! ## POST /api/telemetry/alerts/:alertId/archive (routes/telemetry.js) -/

/-- Success bits for the four storage operations of the archive route:
the ownership fetch, the insert into `archived_alerts`, the delete from
`alerts`, and the compensating delete of the archived copy. -/
structure ArchOracle where
  fetchOk : Bool := true
  insertOk : Bool := true
  deleteOk : Bool := true
  cleanupOk : Bool := true
  deriving DecidableEq, Repr

/-- The response classes of the archive route. -/
inductive ArchOutcome where
  | notFound
  | archived
  | serverError
  deriving DecidableEq, Repr

/-- The `archived_alerts` row built from an alert by the archive route. -/
def archiveCopy (a : Alert) (now : String) : ArchivedAlert :=
  { id := a.id
    device_id := a.device_id
    user_id := a.user_id
    alert_type := a.alert_type
    sensor := a.sensor
    value := a.value
    is_active := a.is_active
    cleared_at := a.cleared_at
    received_at := a.received_at
    archived_at := now }

/-- Embedding of the `POST /alerts/:alertId/archive` route handler:
fetch the alert scoped to the requesting user (404 when absent), insert
a copy into `archived_alerts`, delete the original from `alerts`, and on
a delete failure issue a compensating delete of the just-inserted copy
(whose own error the source ignores) before reporting the error. -/
def archiveAlert (db : DB) (o : ArchOracle) (uid : String) (alertId : Nat)
    (now : String) : DB × ArchOutcome :=
  if !o.fetchOk then (db, .serverError)
  else
    match db.alerts.filter (fun a => a.id == alertId && a.user_id == uid) with
    | [] => (db, .notFound)
    | [a] =>
      if !o.insertOk then (db, .serverError)
      else
        let db1 := { db with archived_alerts := db.archived_alerts ++ [archiveCopy a now] }
        if o.deleteOk then
          let alerts2 := db1.alerts.filter (fun x => !(x.id == alertId && x.user_id == uid))
          ({ db1 with alerts := alerts2 }, .archived)
        else if o.cleanupOk then
          let arch2 := db1.archived_alerts.filter (fun x => !(x.id == alertId))
          ({ db1 with archived_alerts := arch2 }, .serverError)
        else (db1, .serverError)
    | _ => (db, .serverError)

/-! ## Push-notification dispatcher (services/push-notifications.js) -/

/-- The static `ALERT_TITLES` table. -/
def alertTitle (alertType : String) : Option String :=
  if alertType == "WATER_DETECTED" then some "💧 Water Detected"
  else if alertType == "GAS_LEAK_DETECTED" then some "🚨 Gas Leak Alert"
  else if alertType == "HIGH_TEMPERATURE" then some "🌡️ High Temperature Warning"
  else if alertType == "GROUND_MOVEMENT_DETECTED" then some "⚠️ Ground Movement Detected"
  else if alertType == "POWER_ABNORMAL" then some "⚡ Power Issue Detected"
  else if alertType == "MULTIPLE_HAZARDS" then some "🚨 Multiple Hazards Detected"
  else none

/-- The static `ALERT_PRIORITY` table. -/
def alertPriority (alertType : String) : Option String :=
  if alertType == "GAS_LEAK_DETECTED" then some "high"
  else if alertType == "MULTIPLE_HAZARDS" then some "high"
  else if alertType == "POWER_ABNORMAL" then some "default"
  else if alertType == "GROUND_MOVEMENT_DETECTED" then some "default"
  else if alertType == "WATER_DETECTED" then some "default"
  else if alertType == "HIGH_TEMPERATURE" then some "default"
  else none

/-- JavaScript `Number.prototype.toFixed(1)`, restricted to the integral
values the model carries. -/
def toFixed1 (n : Int) : String :=
  toString n ++ ".0"

/-- JavaScript `Number.prototype.toFixed(2)`, restricted to the integral
values the model carries. -/
def toFixed2 (n : Int) : String :=
  toString n ++ ".00"

/-- The `ALERT_MESSAGES` body templates, keyed by alert type. -/
def alertBody (alertType : String) (sensor : Option String) (value : Option Int) :
    Option String :=
  if alertType == "WATER_DETECTED" then
    let location :=
      match sensor with
      | some s =>
        if charsPrefix "ZONE".toList s.toList then String.replace s "ZONE" "Zone "
        else if s == "" then "your property" else s
      | none => "your property"
    some ("Water has been detected in " ++ location ++ ". Please check the area immediately.")
  else if alertType == "GAS_LEAK_DETECTED" then
    some "A gas leak has been detected! Please examine the area immediately and contact emergency services."
  else if alertType == "HIGH_TEMPERATURE" then
    let temp := match value with
      | some v => if v == 0 then "an elevated level" else toFixed1 v ++ "°C"
      | none => "an elevated level"
    some ("High temperature detected (" ++ temp ++ "). Please check your property for potential fire hazards.")
  else if alertType == "GROUND_MOVEMENT_DETECTED" then
    let intensity := match value with
      | some v => if v == 0 then "" else " (Intensity: " ++ toFixed2 v ++ ")"
      | none => ""
    some ("Ground movement detected" ++ intensity ++ ". This may indicate seismic activity or structural issues.")
  else if alertType == "POWER_ABNORMAL" then
    some "An abnormal power condition has been detected. Please check your electrical system."
  else if alertType == "MULTIPLE_HAZARDS" then
    some "Multiple hazards have been detected simultaneously. Please check your property immediately and ensure your safety."
  else none

/-- The formatted notification produced by `formatAlertNotification`. -/
structure Notification where
  title : String
  body : String
  priority : String
  deriving DecidableEq, Repr

/-- Embedding of `formatAlertNotification`: title and priority from the
static tables with generic fallbacks, body from the per-type template or
the generic message. -/
def formatAlertNotification (a : Alert) : Notification :=
  let t := (a.alert_type).getD ""
  { title := (alertTitle t).getD ("⚠️ " ++ String.replace t "_" " ")
    body := (alertBody t a.sensor a.value).getD
      ("Alert detected: " ++ t ++ ". Please check your device.")
    priority := (alertPriority t).getD "default" }

/-- One message handed to the push gateway: a recipient token (the `to`
field in the source) plus the formatted notification. -/
structure PushMsg where
  recipient : String
  note : Notification
  deriving DecidableEq, Repr

/-- One delivery ticket returned by the push gateway; an `error` ticket
may name the offending token in its details. -/
structure PushTicket where
  status : String
  detailsToken : Option String
  deriving DecidableEq, Repr

/-- Embedding of `getUserPushTokens`: the user's stored tokens filtered
through `Expo.isExpoPushToken` (an external structural check, taken as a
parameter). -/
def getUserPushTokens (db : DB) (isExpoToken : String → Bool) (userId : String) :
    List String :=
  ((db.push_tokens.filter (fun t => t.user_id == userId)).map
    (fun t => t.expo_push_token)).filter isExpoToken

/-- `expo.chunkPushNotifications`: batches of at most 100 messages. -/
def chunkPush : List PushMsg → List (List PushMsg)
  | [] => []
  | x :: xs => ((x :: xs).take 100) :: chunkPush ((x :: xs).drop 100)
termination_by l => l.length
decreasing_by
  simp only [List.length_drop, List.length_cons]
  omega

/-- The result record of `sendPushNotificationToUser`. -/
inductive PushResult where
  | noTokens
  | sent (ok : Nat) (total : Nat)
  deriving DecidableEq, Repr

/-- The messages built for a user's tokens: one per token, all carrying
the same formatted notification. -/
def pushMessages (tokens : List String) (a : Alert) : List PushMsg :=
  tokens.map (fun tok => { recipient := tok, note := formatAlertNotification a : PushMsg })

/-- The tokens named by `error` tickets in the gateway's response
(`error.details.expoPushToken`). -/
def invalidTokensOf (tickets : List PushTicket) : List String :=
  tickets.filterMap (fun tk => if tk.status == "error" then tk.detailsToken else none)

/-- Embedding of `sendPushNotificationToUser`: fetch the user's tokens
(empty means no delivery at all), format the notification once, fan it
out to every token, send in chunks through the gateway, and delete from
storage every token a returned error ticket names. -/
def sendPushNotificationToUser (db : DB) (isExpoToken : String → Bool)
    (gateway : List PushMsg → List PushTicket) (userId : String) (a : Alert) :
    DB × List PushMsg × PushResult :=
  let pushTokens := getUserPushTokens db isExpoToken userId
  if pushTokens == [] then (db, [], .noTokens)
  else
    let messages := pushMessages pushTokens a
    let tickets := (chunkPush messages).flatMap gateway
    let invalid := invalidTokensOf tickets
    let kept := invalid.foldl
      (fun acc tok => acc.filter (fun pt => !(pt.expo_push_token == tok))) db.push_tokens
    let db2 := { db with push_tokens := kept }
    (db2, messages,
      .sent ((tickets.filter (fun tk => tk.status == "ok")).length) tickets.length)

/-! ## Theorems -/

/-- C5 (counterexample): the decoded payload `{alert: 0}` contains an
`alert` field, yet the classifier returns `"unknown"` rather than
`"alert"`, because `if (payload.alert)` tests JavaScript truthiness, not
field presence. -/
theorem determineMessageType_falsy_alert_counterexample :
    (({ alert := some (.num 0) } : MsgPayload).alert).isSome = true ∧
    determineMessageType { alert := some (.num 0) } = "unknown" ∧
    determineMessageType { alert := some (.num 0) } ≠ "alert" := by
  refine ⟨rfl, by decide, by decide⟩

/-- C5 (amended): classification checks the guards in priority order on
JavaScript truthiness: `alert` truthy gives `alert`; else `status`
strictly equal to the cleared sentinel gives `alert_cleared`; else
`power` truthy gives `power_status`; else `water`, `temperature` or
`gyro` truthy, or `gas` present with any value, gives `sensor_reading`;
else truthy `medicine_name` or `schedule_id` gives the legacy
`medication` type; otherwise `unknown`. -/
theorem determineMessageType_spec (p : MsgPayload) :
    (determineMessageType p = "alert" ↔ truthyO p.alert = true) ∧
    (determineMessageType p = "alert_cleared" ↔
      (truthyO p.alert = false ∧ p.status = some (.str "ALERT_CLEARED"))) ∧
    (determineMessageType p = "power_status" ↔
      (truthyO p.alert = false ∧ p.status ≠ some (.str "ALERT_CLEARED") ∧
        truthyO p.power = true)) ∧
    (determineMessageType p = "sensor_reading" ↔
      (truthyO p.alert = false ∧ p.status ≠ some (.str "ALERT_CLEARED") ∧
        truthyO p.power = false ∧
        (truthyO p.water = true ∨ p.gas ≠ none ∨ truthyO p.temperature = true ∨
          truthyO p.gyro = true))) ∧
    (determineMessageType p = "medication" ↔
      (truthyO p.alert = false ∧ p.status ≠ some (.str "ALERT_CLEARED") ∧
        truthyO p.power = false ∧
        ¬(truthyO p.water = true ∨ p.gas ≠ none ∨ truthyO p.temperature = true ∨
          truthyO p.gyro = true) ∧
        (truthyO p.medicine_name = true ∨ truthyO p.schedule_id = true))) ∧
    (determineMessageType p = "unknown" ↔
      (truthyO p.alert = false ∧ p.status ≠ some (.str "ALERT_CLEARED") ∧
        truthyO p.power = false ∧
        ¬(truthyO p.water = true ∨ p.gas ≠ none ∨ truthyO p.temperature = true ∨
          truthyO p.gyro = true) ∧
        truthyO p.medicine_name = false ∧ truthyO p.schedule_id = false)) := by
  cases h1 : truthyO p.alert
  case true => simp [determineMessageType, h1]
  all_goals cases h2 : p.status == some (.str "ALERT_CLEARED")
  case true =>
    have h2e : p.status = some (.str "ALERT_CLEARED") := by simpa using h2
    simp [determineMessageType, h1, h2, h2e]
  all_goals
    have h2e : p.status ≠ some (.str "ALERT_CLEARED") := by simpa using h2
  all_goals cases h3 : truthyO p.power
  case true => simp [determineMessageType, h1, h2, h2e, h3]
  all_goals cases h4 :
    (truthyO p.water || !(p.gas == none) || truthyO p.temperature || truthyO p.gyro)
  case true =>
    have h4e : truthyO p.water = true ∨ p.gas ≠ none ∨ truthyO p.temperature = true ∨
        truthyO p.gyro = true := by
      simpa [Bool.or_eq_true, or_assoc] using h4
    simp [determineMessageType, h1, h2, h2e, h3, h4, h4e]
  all_goals
    have h4e : ¬(truthyO p.water = true ∨ p.gas ≠ none ∨ truthyO p.temperature = true ∨
        truthyO p.gyro = true) := by
      simp only [Bool.or_eq_false_iff] at h4
      obtain ⟨⟨⟨hw, hg⟩, ht⟩, hy⟩ := h4
      have hgas : p.gas = none := by simpa using hg
      simp [hw, ht, hy, hgas]
  all_goals cases h5 : (truthyO p.medicine_name || truthyO p.schedule_id)
  case true =>
    have h5e : truthyO p.medicine_name = true ∨ truthyO p.schedule_id = true := by
      simpa [Bool.or_eq_true] using h5
    simp [determineMessageType, h1, h2, h2e, h3, h4, h4e, h5, h5e]
    intro hm
    cases h5e with
    | inl h => simp [h] at hm
    | inr h => exact h
  all_goals
    simp only [Bool.or_eq_false_iff] at h5
    simp [determineMessageType, h1, h2, h2e, h3, h4, h4e, h5.1, h5.2]

/-- C7: an error whose message contains the keepalive-timeout marker is
swallowed by the broker client's error handler (no `error` event is
emitted, whatever the listener count); any other error is emitted as an
`error` event exactly when at least one `error` listener is registered,
and is only logged otherwise. -/
theorem mqttOnError_spec (st : MqttState) (msg : Option String) :
    (hasKeepaliveMarker msg = true → (mqttOnError st msg).2 = []) ∧
    (hasKeepaliveMarker msg = false →
      ((mqttOnError st msg).2 = [MqttAction.emitError msg] ↔ 0 < st.errorListeners) ∧
      (st.errorListeners = 0 → (mqttOnError st msg).2 = [])) := by
  constructor
  · intro hmark
    match msg with
    | none => simp [hasKeepaliveMarker] at hmark
    | some s =>
      have hc : charsContains s.toList "Keepalive timeout".toList = true := hmark
      have hs : (s == "") = false := by
        cases hbe : s == "" with
        | false => rfl
        | true =>
          have hse : s = "" := by simpa using hbe
          rw [hse] at hc
          exact absurd hc (by decide)
      show (mqttOnError st (some s)).2 = []
      simp only [mqttOnError, hs, hc]
      simp
  · intro hmark
    match msg with
    | none =>
      refine ⟨?_, ?_⟩
      · by_cases hl : 0 < st.errorListeners <;> simp [mqttOnError, hl]
      · intro h0
        simp [mqttOnError, h0]
    | some s =>
      have hc : charsContains s.toList "Keepalive timeout".toList = false := hmark
      refine ⟨?_, ?_⟩
      · by_cases hl : 0 < st.errorListeners <;>
          (simp only [mqttOnError, hc]; simp [hl])
      · intro h0
        simp only [mqttOnError, hc]
        simp [h0]

/-- Witness for `mqttOnError_spec` at concrete inputs: a keepalive
timeout with three listeners emits nothing; another error emits exactly
when a listener exists. -/
theorem mqttOnError_spec_witness :
    (mqttOnError ⟨true, 3⟩ (some "Keepalive timeout detected")).2 = [] ∧
    (mqttOnError ⟨true, 1⟩ (some "connection refused")).2 =
      [MqttAction.emitError (some "connection refused")] ∧
    (mqttOnError ⟨true, 0⟩ (some "connection refused")).2 = [] := by
  refine ⟨(mqttOnError_spec ⟨true, 3⟩ (some "Keepalive timeout detected")).1 (by decide),
    ((mqttOnError_spec ⟨true, 1⟩ (some "connection refused")).2 (by decide)).1.mpr
      (by decide),
    ((mqttOnError_spec ⟨true, 0⟩ (some "connection refused")).2 (by decide)).2 rfl⟩

/-- The per-zone water-alert loop never touches the `sensor_readings`
table. -/
theorem waterAlertStep_sensor_readings (db : DB) (c i : Bool) (dev uid zone : String)
    (det : Bool) (t : String) :
    (waterAlertStep db c i dev uid zone det t).1.sensor_readings = db.sensor_readings := by
  unfold waterAlertStep
  split <;> try rfl
  split <;> try rfl
  split
  · split <;> rfl
  · rfl

/-- C2: the sensor-reading handler stores each zone's detection boolean
duplicated into both of the zone's columns, and the boolean is true
exactly when at least one of the zone's two magnitudes (indices 0 and 1
for zone 1, indices 2 and 3 for zone 2) strictly exceeds 500. -/
theorem handleSensorReading_zone_detection
    (db : DB) (o : SROracle) (dev uid rt : String) (p : Payload) (a b c d : Int)
    (hw : p.water = some [a, b, c, d]) (hok : o.readingInsertOk = true) :
    (handleSensorReading db o dev uid p rt).1.sensor_readings
        = db.sensor_readings ++ [buildSensorReading dev uid p rt] ∧
    (buildSensorReading dev uid p rt).water_1 = (buildSensorReading dev uid p rt).water_2 ∧
    (buildSensorReading dev uid p rt).water_3 = (buildSensorReading dev uid p rt).water_4 ∧
    ((buildSensorReading dev uid p rt).water_1 = some 1 ↔ (500 < a ∨ 500 < b)) ∧
    ((buildSensorReading dev uid p rt).water_1 = some 0 ↔ ¬(500 < a ∨ 500 < b)) ∧
    ((buildSensorReading dev uid p rt).water_3 = some 1 ↔ (500 < c ∨ 500 < d)) ∧
    ((buildSensorReading dev uid p rt).water_3 = some 0 ↔ ¬(500 < c ∨ 500 < d)) := by
  refine ⟨?_, ?_, ?_, ?_, ?_, ?_, ?_⟩
  · simp [handleSensorReading, hok, waterAlertStep_sensor_readings]
  · simp [buildSensorReading]
  · simp [buildSensorReading]
  · by_cases h1 : 500 < a <;> by_cases h2 : 500 < b <;>
      simp [buildSensorReading, zone1det, waterMag, hw, h1, h2]
  · by_cases h1 : 500 < a <;> by_cases h2 : 500 < b <;>
      simp [buildSensorReading, zone1det, waterMag, hw, h1, h2]
  · by_cases h1 : 500 < c <;> by_cases h2 : 500 < d <;>
      simp [buildSensorReading, zone2det, waterMag, hw, h1, h2]
  · by_cases h1 : 500 < c <;> by_cases h2 : 500 < d <;>
      simp [buildSensorReading, zone2det, waterMag, hw, h1, h2]

/-- Witness for `handleSensorReading_zone_detection` at the two example
inputs of the claim: `[600,0,0,0]` yields zone 1 detected and zone 2
clear, `[0,0,501,0]` the reverse. -/
theorem handleSensorReading_zone_detection_witness :
    (handleSensorReading {} {} "D" "U" { water := some [600, 0, 0, 0] } "T").1.sensor_readings
        = [] ++ [buildSensorReading "D" "U" { water := some [600, 0, 0, 0] } "T"] ∧
    (buildSensorReading "D" "U" { water := some [600, 0, 0, 0] } "T").water_1 = some 1 ∧
    (buildSensorReading "D" "U" { water := some [600, 0, 0, 0] } "T").water_3 = some 0 ∧
    (buildSensorReading "D" "U" { water := some [0, 0, 501, 0] } "T").water_1 = some 0 ∧
    (buildSensorReading "D" "U" { water := some [0, 0, 501, 0] } "T").water_3 = some 1 := by
  have h1 := handleSensorReading_zone_detection {} {} "D" "U" "T"
    { water := some [600, 0, 0, 0] } 600 0 0 0 rfl rfl
  have h2 := handleSensorReading_zone_detection {} {} "D" "U" "T"
    { water := some [0, 0, 501, 0] } 0 0 501 0 rfl rfl
  exact ⟨h1.1, h1.2.2.2.1.mpr (Or.inl (by decide)),
    h1.2.2.2.2.2.2.mpr (by decide),
    h2.2.2.2.2.1.mpr (by decide),
    h2.2.2.2.2.2.1.mpr (Or.inl (by decide))⟩

/-- C4: when the alert handler's insert succeeds and the alert type is
`GAS_LEAK_DETECTED`, exactly one companion sensor-reading insert is
issued, whose row has `gas_detected = true` and every other sensor field
null, and on storage success exactly that row is appended; for any other
alert type no sensor-reading insert is issued and the table is
unchanged. -/
theorem handleAlert_gas_companion_reading
    (db : DB) (o : AlertOracle) (dev uid rt : String) (p : Payload)
    (hok : o.alertInsertOk = true) :
    (p.alert = some "GAS_LEAK_DETECTED" →
      (handleAlert db o dev uid p rt).2.filter Effect.isReadingInsert =
        [Effect.insertReadingRow
          { device_id := dev, user_id := uid
            water_1 := none, water_2 := none, water_3 := none, water_4 := none
            gas_detected := some true, temp_1 := none, temp_2 := none
            movement := none, power_status := none, received_at := rt }] ∧
      (o.gasReadingInsertOk = true →
        (handleAlert db o dev uid p rt).1.sensor_readings = db.sensor_readings ++
          [{ device_id := dev, user_id := uid
             water_1 := none, water_2 := none, water_3 := none, water_4 := none
             gas_detected := some true, temp_1 := none, temp_2 := none
             movement := none, power_status := none, received_at := rt }])) ∧
    (p.alert ≠ some "GAS_LEAK_DETECTED" →
      (handleAlert db o dev uid p rt).2.filter Effect.isReadingInsert = [] ∧
      (handleAlert db o dev uid p rt).1.sensor_readings = db.sensor_readings) := by
  constructor
  · intro hp
    constructor
    · cases hg : o.gasReadingInsertOk <;>
        simp [handleAlert, hok, hp, hg, Effect.isReadingInsert]
    · intro hg
      simp [handleAlert, hok, hp, hg]
  · intro hp
    have hp2 : (p.alert == some "GAS_LEAK_DETECTED") = false := by
      simpa using hp
    constructor <;> simp [handleAlert, hok, hp2, Effect.isReadingInsert]

/-- Witness for `handleAlert_gas_companion_reading`: a gas-leak alert
produces the synthetic reading, a high-temperature alert produces
none. -/
theorem handleAlert_gas_companion_reading_witness :
    (handleAlert {} {} "D" "U" { alert := some "GAS_LEAK_DETECTED" } "T").1.sensor_readings
        = [] ++ [{ device_id := "D", user_id := "U"
                   water_1 := none, water_2 := none, water_3 := none, water_4 := none
                   gas_detected := some true, temp_1 := none, temp_2 := none
                   movement := none, power_status := none, received_at := "T" }] ∧
    (handleAlert {} {} "D" "U" { alert := some "HIGH_TEMPERATURE" } "T").1.sensor_readings
        = [] := by
  have h1 := handleAlert_gas_companion_reading {} {} "D" "U" "T"
    { alert := some "GAS_LEAK_DETECTED" } rfl
  have h2 := handleAlert_gas_companion_reading {} {} "D" "U" "T"
    { alert := some "HIGH_TEMPERATURE" } rfl
  exact ⟨(h1.1 rfl).2 rfl, (h2.2 (by decide)).2⟩

/-- C1: when the device of an inbound telemetry envelope resolves to a
known, active device, the router forwards the original envelope to the
WebSocket registry for the owning user, for every message type (handled
or not) and every combination of storage successes and failures in the
ingestion handlers; when the device lookup fails, finds no device, or
finds an inactive device, nothing happens at all (no storage attempt and
no forward). -/
theorem handleTelemetry_always_forwards
    (db : DB) (o : TelOracle) (data : Envelope) :
    (∀ d : Device, o.deviceLookupOk = true → lookupDevice db data.deviceId = some d →
      d.is_active = true →
      Effect.sendToUser d.user_id
          { deviceId := data.deviceId, messageType := data.messageType
            payload := data.payload, receivedAt := data.receivedAt }
        ∈ (handleTelemetry db o data).2) ∧
    (o.deviceLookupOk = false → handleTelemetry db o data = (db, [])) ∧
    (lookupDevice db data.deviceId = none → handleTelemetry db o data = (db, [])) ∧
    (∀ d : Device, lookupDevice db data.deviceId = some d → d.is_active = false →
      handleTelemetry db o data = (db, [])) := by
  refine ⟨?_, ?_, ?_, ?_⟩
  · intro d hok hd hact
    simp [handleTelemetry, hok, hd, hact]
  · intro hok
    simp [handleTelemetry, hok]
  · intro hd
    cases hok : o.deviceLookupOk <;> simp [handleTelemetry, hok, hd]
  · intro d hd hact
    cases hok : o.deviceLookupOk <;> simp [handleTelemetry, hok, hd, hact]

/-- Witness for `handleTelemetry_always_forwards`: with one active
device, an unrecognized message type and every storage operation
failing, the envelope is still forwarded; an inactive device and an
unknown device produce no effects. -/
theorem handleTelemetry_always_forwards_witness :
    Effect.sendToUser "U"
        { deviceId := "D", messageType := "mystery"
          payload := {}, receivedAt := "T" }
      ∈ (handleTelemetry { devices := [⟨0, "D", "U", "n", true, "t"⟩] }
          { deviceLookupOk := true
            alertO := ⟨false, false⟩
            clearUpdateOk := false
            srO := ⟨false, false, false, false, false⟩
            powerInsertOk := false }
          ⟨"D", "mystery", {}, "T"⟩).2 ∧
    handleTelemetry { devices := [⟨0, "D", "U", "n", false, "t"⟩] } {}
        ⟨"D", "alert", {}, "T"⟩
      = ({ devices := [⟨0, "D", "U", "n", false, "t"⟩] }, []) ∧
    handleTelemetry ({} : DB) {} ⟨"D", "alert", {}, "T"⟩ = ({}, []) := by
  refine ⟨?_, ?_, ?_⟩
  · exact (handleTelemetry_always_forwards
      { devices := [⟨0, "D", "U", "n", true, "t"⟩] }
      { deviceLookupOk := true
        alertO := ⟨false, false⟩
        clearUpdateOk := false
        srO := ⟨false, false, false, false, false⟩
        powerInsertOk := false }
      ⟨"D", "mystery", {}, "T"⟩).1 ⟨0, "D", "U", "n", true, "t"⟩ rfl (by decide) rfl
  · exact (handleTelemetry_always_forwards
      { devices := [⟨0, "D", "U", "n", false, "t"⟩] } {} ⟨"D", "alert", {}, "T"⟩).2.2.2
      ⟨0, "D", "U", "n", false, "t"⟩ (by decide) rfl
  · exact (handleTelemetry_always_forwards {} {} ⟨"D", "alert", {}, "T"⟩).2.2.1 (by decide)

/-- Appending one row adds its key indicator to the active count. -/
theorem activeCount_append (l : List Alert) (a : Alert) (dev uid zone : String) :
    activeCount (l ++ [a]) dev uid zone =
      activeCount l dev uid zone + (if waterKey dev uid zone a then 1 else 0) := by
  simp only [activeCount, List.filter_append]
  cases h : waterKey dev uid zone a <;> simp [h]

/-- The per-zone water-alert loop either leaves the alerts table
untouched, or — only when its own key had no active alert — appends one
fresh active alert with that key. -/
theorem waterAlertStep_alerts_spec (db : DB) (c i : Bool) (dev uid zone : String)
    (det : Bool) (t : String) :
    (waterAlertStep db c i dev uid zone det t).1.alerts = db.alerts ∨
    (db.alerts.filter (waterKey dev uid zone) = [] ∧
      (waterAlertStep db c i dev uid zone det t).1.alerts = db.alerts ++
        [{ id := db.nextAlertId, device_id := dev, user_id := uid
           alert_type := some "WATER_DETECTED", sensor := some zone, value := some 1
           is_active := true, cleared_at := none, received_at := t }]) := by
  cases hdet : det
  · left; simp [waterAlertStep]
  · cases hc : c
    · left; simp [waterAlertStep]
    · cases hf : db.alerts.filter (waterKey dev uid zone) with
      | nil =>
        cases hi : i
        · left; simp [waterAlertStep, hf, hi]
        · right
          exact ⟨rfl, by simp [waterAlertStep, hf, hi]⟩
      | cons x xs =>
        left; simp [waterAlertStep, hf]

/-- One zone step can only raise an active count that was zero, and only
to one. -/
theorem waterAlertStep_activeCount_le (db : DB) (c i : Bool) (dev uid zone : String)
    (det : Bool) (t : String) (dev2 uid2 zone2 : String) :
    activeCount (waterAlertStep db c i dev uid zone det t).1.alerts dev2 uid2 zone2 ≤
      max 1 (activeCount db.alerts dev2 uid2 zone2) := by
  rcases waterAlertStep_alerts_spec db c i dev uid zone det t with h | ⟨hf, h⟩
  · unfold activeCount
    rw [h]
    exact le_max_right _ _
  · rw [h, activeCount_append]
    cases hkey : waterKey dev2 uid2 zone2
        { id := db.nextAlertId, device_id := dev, user_id := uid
          alert_type := some "WATER_DETECTED", sensor := some zone, value := some 1
          is_active := true, cleared_at := none, received_at := t } with
    | false =>
      simp
    | true =>
      obtain ⟨⟨h1, h2⟩, h3⟩ :
          (dev = dev2 ∧ uid = uid2) ∧ zone = zone2 := by simpa [waterKey] using hkey
      subst h1; subst h2; subst h3
      have hc0 : activeCount db.alerts dev uid zone = 0 := by
        simp [activeCount, hf]
      simp [hc0]

/-- One zone step leaves the active alerts of every other key
untouched. -/
theorem waterAlertStep_filter_other (db : DB) (c i : Bool) (dev uid zone : String)
    (det : Bool) (t : String) (dev2 uid2 zone2 : String)
    (hne : ¬(dev = dev2 ∧ uid = uid2 ∧ zone = zone2)) :
    (waterAlertStep db c i dev uid zone det t).1.alerts.filter (waterKey dev2 uid2 zone2) =
      db.alerts.filter (waterKey dev2 uid2 zone2) := by
  rcases waterAlertStep_alerts_spec db c i dev uid zone det t with h | ⟨hf, h⟩
  · rw [h]
  · rw [h, List.filter_append]
    have hkey : waterKey dev2 uid2 zone2
        { id := db.nextAlertId, device_id := dev, user_id := uid
          alert_type := some "WATER_DETECTED", sensor := some zone, value := some 1
          is_active := true, cleared_at := none, received_at := t } = false := by
      cases hkey : waterKey dev2 uid2 zone2
          { id := db.nextAlertId, device_id := dev, user_id := uid
            alert_type := some "WATER_DETECTED", sensor := some zone, value := some 1
            is_active := true, cleared_at := none, received_at := t } with
      | false => rfl
      | true =>
        obtain ⟨⟨h1, h2⟩, h3⟩ :
            (dev = dev2 ∧ uid = uid2) ∧ zone = zone2 := by simpa [waterKey] using hkey
        exact absurd ⟨h1, h2, h3⟩ hne
    simp [hkey]

/-- Deactivating rows in place cannot increase the number of rows
matched by a predicate that requires the active flag. -/
theorem length_filter_map_le {α : Type} (f : α → α) (p : α → Bool) (l : List α)
    (hf : ∀ x, p (f x) = true → f x = x) :
    ((l.map f).filter p).length ≤ (l.filter p).length := by
  induction l with
  | nil => simp
  | cons x xs ih =>
    simp only [List.map_cons, List.filter_cons]
    cases hx : p (f x) with
    | true =>
      have hfx : f x = x := hf x hx
      rw [hfx] at hx
      simpa [hfx, hx] using ih
    | false =>
      cases hpx : p x
      · simpa using ih
      · simp only [hpx, if_true, List.length_cons]
        simp only [Bool.false_eq_true, if_false]
        exact le_trans ih (Nat.le_succ _)

/-- A map whose image never satisfies the predicate filters to the empty
list. -/
theorem filter_map_nil {α : Type} (f : α → α) (p : α → Bool) (l : List α)
    (hf : ∀ x, p (f x) = false) : (l.map f).filter p = [] := by
  induction l with
  | nil => rfl
  | cons x xs ih => simp [List.filter_cons, hf x, ih]

/-- The sensor-reading handler preserves the water-alert deduplication
invariant. -/
theorem handleSensorReading_WaterInv (db : DB) (o : SROracle) (dev uid : String)
    (p : Payload) (t : String) (h : WaterInv db) :
    WaterInv (handleSensorReading db o dev uid p t).1 := by
  intro dev2 uid2 zone2
  cases hro : o.readingInsertOk with
  | false =>
    simp only [handleSensorReading, hro]
    exact h dev2 uid2 zone2
  | true =>
    simp only [handleSensorReading, hro]
    have hdb : activeCount db.alerts dev2 uid2 zone2 ≤ 1 := h dev2 uid2 zone2
    have t1 := waterAlertStep_activeCount_le
      { db with sensor_readings := db.sensor_readings ++ [buildSensorReading dev uid p t] }
      o.check1Ok o.insert1Ok dev uid "ZONE1" (zone1det p) t dev2 uid2 zone2
    have t2 := waterAlertStep_activeCount_le
      (waterAlertStep
        { db with sensor_readings := db.sensor_readings ++ [buildSensorReading dev uid p t] }
        o.check1Ok o.insert1Ok dev uid "ZONE1" (zone1det p) t).1
      o.check2Ok o.insert2Ok dev uid "ZONE2" (zone2det p) t dev2 uid2 zone2
    have h1 : activeCount (waterAlertStep
        { db with sensor_readings := db.sensor_readings ++ [buildSensorReading dev uid p t] }
        o.check1Ok o.insert1Ok dev uid "ZONE1" (zone1det p) t).1.alerts dev2 uid2 zone2 ≤ 1 :=
      le_trans t1 (Nat.max_le.mpr ⟨le_refl 1, hdb⟩)
    exact le_trans t2 (Nat.max_le.mpr ⟨le_refl 1, h1⟩)

/-- The alert-cleared handler preserves the water-alert deduplication
invariant. -/
theorem handleAlertCleared_WaterInv (db : DB) (ok : Bool) (dev uid : String)
    (p : Payload) (t : String) (h : WaterInv db) :
    WaterInv (handleAlertCleared db ok dev uid p t).1 := by
  intro dev2 uid2 zone2
  cases hok : ok with
  | false =>
    simp only [handleAlertCleared, hok]
    exact h dev2 uid2 zone2
  | true =>
    simp only [handleAlertCleared, hok]
    refine le_trans (length_filter_map_le _ _ _ ?_) (h dev2 uid2 zone2)
    intro a ha
    by_cases hcm : clearMatches dev uid (jsStrOr p.alert p.alertType) (jsStrOrNull p.sensor) a
    · rw [if_pos hcm] at ha
      simp [waterKey] at ha
    · rw [if_neg hcm]

/-- A clear message whose (truthy) type and sensor filters are absent or
match `WATER_DETECTED` and the given zone deactivates every active water
alert of that (device, user, zone) key. -/
theorem handleAlertCleared_zero (db : DB) (dev uid : String) (p : Payload) (t zone : String)
    (halert : jsStrOr p.alert p.alertType = none ∨
      jsStrOr p.alert p.alertType = some "WATER_DETECTED")
    (hsen : jsStrOrNull p.sensor = none ∨ jsStrOrNull p.sensor = some zone) :
    activeCount (handleAlertCleared db true dev uid p t).1.alerts dev uid zone = 0 := by
  have hf : ∀ a : Alert,
      waterKey dev uid zone
        (if clearMatches dev uid (jsStrOr p.alert p.alertType) (jsStrOrNull p.sensor) a
          then { a with is_active := false, cleared_at := some t } else a) = false := by
    intro a
    by_cases hcm : clearMatches dev uid (jsStrOr p.alert p.alertType) (jsStrOrNull p.sensor) a
    · rw [if_pos hcm]
      simp [waterKey]
    · rw [if_neg hcm]
      cases hw : waterKey dev uid zone a with
      | false => rfl
      | true =>
        exfalso
        apply hcm
        obtain ⟨⟨⟨⟨hd, hu⟩, hat⟩, hs⟩, ha⟩ :
            (((a.device_id = dev ∧ a.user_id = uid) ∧ a.alert_type = some "WATER_DETECTED") ∧
              a.sensor = some zone) ∧ a.is_active = true := by
          simpa [waterKey] using hw
        rcases halert with h | h <;> rcases hsen with h2 | h2 <;>
          simp [clearMatches, hd, hu, hat, hs, ha, h, h2]
  simp only [handleAlertCleared, Bool.not_true]
  unfold activeCount
  rw [show (if (false = true) then (db, ([] : List Effect)) else
      ({ db with alerts := db.alerts.map (fun a =>
        if clearMatches dev uid (jsStrOr p.alert p.alertType) (jsStrOrNull p.sensor) a then
          { a with is_active := false, cleared_at := some t }
        else a) }, ([] : List Effect))) = ({ db with alerts := db.alerts.map (fun a =>
        if clearMatches dev uid (jsStrOr p.alert p.alertType) (jsStrOrNull p.sensor) a then
          { a with is_active := false, cleared_at := some t }
        else a) }, ([] : List Effect)) from by simp]
  rw [filter_map_nil _ _ _ hf]
  rfl

/-- A detected zone 1 with no active zone 1 alert gains exactly one
active alert from a successfully stored reading. -/
theorem handleSensorReading_rearm_zone1 (db : DB) (o : SROracle) (dev uid : String)
    (p : Payload) (t : String)
    (hdet : zone1det p = true) (h0 : activeCount db.alerts dev uid "ZONE1" = 0)
    (hro : o.readingInsertOk = true) (hc1 : o.check1Ok = true) (hi1 : o.insert1Ok = true) :
    activeCount (handleSensorReading db o dev uid p t).1.alerts dev uid "ZONE1" = 1 := by
  have hf : db.alerts.filter (waterKey dev uid "ZONE1") = [] :=
    List.length_eq_zero.mp h0
  have hs1 : (waterAlertStep
      { db with sensor_readings := db.sensor_readings ++ [buildSensorReading dev uid p t] }
      o.check1Ok o.insert1Ok dev uid "ZONE1" (zone1det p) t).1.alerts
      = db.alerts ++
        [{ id := db.nextAlertId, device_id := dev, user_id := uid
           alert_type := some "WATER_DETECTED", sensor := some "ZONE1", value := some 1
           is_active := true, cleared_at := none, received_at := t }] := by
    simp [waterAlertStep, hdet, hc1, hf, hi1]
  have hcount1 : activeCount (waterAlertStep
      { db with sensor_readings := db.sensor_readings ++ [buildSensorReading dev uid p t] }
      o.check1Ok o.insert1Ok dev uid "ZONE1" (zone1det p) t).1.alerts dev uid "ZONE1" = 1 := by
    rw [hs1, activeCount_append, h0]
    simp [waterKey]
  have hother := waterAlertStep_filter_other
    (waterAlertStep
      { db with sensor_readings := db.sensor_readings ++ [buildSensorReading dev uid p t] }
      o.check1Ok o.insert1Ok dev uid "ZONE1" (zone1det p) t).1
    o.check2Ok o.insert2Ok dev uid "ZONE2" (zone2det p) t dev uid "ZONE1" (by simp)
  simp only [handleSensorReading, hro, Bool.not_true, Bool.false_eq_true, if_false]
  unfold activeCount at hcount1 ⊢
  rw [hother]
  exact hcount1

/-- A detected zone 2 with no active zone 2 alert gains exactly one
active alert from a successfully stored reading. -/
theorem handleSensorReading_rearm_zone2 (db : DB) (o : SROracle) (dev uid : String)
    (p : Payload) (t : String)
    (hdet : zone2det p = true) (h0 : activeCount db.alerts dev uid "ZONE2" = 0)
    (hro : o.readingInsertOk = true) (hc2 : o.check2Ok = true) (hi2 : o.insert2Ok = true) :
    activeCount (handleSensorReading db o dev uid p t).1.alerts dev uid "ZONE2" = 1 := by
  have hother1 := waterAlertStep_filter_other
    { db with sensor_readings := db.sensor_readings ++ [buildSensorReading dev uid p t] }
    o.check1Ok o.insert1Ok dev uid "ZONE1" (zone1det p) t dev uid "ZONE2" (by simp)
  have hf1 : (waterAlertStep
      { db with sensor_readings := db.sensor_readings ++ [buildSensorReading dev uid p t] }
      o.check1Ok o.insert1Ok dev uid "ZONE1" (zone1det p) t).1.alerts.filter
        (waterKey dev uid "ZONE2") = [] := by
    rw [hother1]
    exact List.length_eq_zero.mp h0
  have hs2 : (waterAlertStep
      (waterAlertStep
        { db with sensor_readings := db.sensor_readings ++ [buildSensorReading dev uid p t] }
        o.check1Ok o.insert1Ok dev uid "ZONE1" (zone1det p) t).1
      o.check2Ok o.insert2Ok dev uid "ZONE2" (zone2det p) t).1.alerts
      = (waterAlertStep
        { db with sensor_readings := db.sensor_readings ++ [buildSensorReading dev uid p t] }
        o.check1Ok o.insert1Ok dev uid "ZONE1" (zone1det p) t).1.alerts ++
        [{ id := (waterAlertStep
            { db with sensor_readings := db.sensor_readings ++ [buildSensorReading dev uid p t] }
            o.check1Ok o.insert1Ok dev uid "ZONE1" (zone1det p) t).1.nextAlertId
           device_id := dev, user_id := uid
           alert_type := some "WATER_DETECTED", sensor := some "ZONE2", value := some 1
           is_active := true, cleared_at := none, received_at := t }] := by
    generalize (waterAlertStep
        { db with sensor_readings := db.sensor_readings ++ [buildSensorReading dev uid p t] }
        o.check1Ok o.insert1Ok dev uid "ZONE1" (zone1det p) t).1 = mid at hf1 ⊢
    simp [waterAlertStep, hdet, hc2, hf1, hi2]
  simp only [handleSensorReading, hro, Bool.not_true, Bool.false_eq_true, if_false]
  rw [hs2, activeCount_append]
  have hz : activeCount (waterAlertStep
      { db with sensor_readings := db.sensor_readings ++ [buildSensorReading dev uid p t] }
      o.check1Ok o.insert1Ok dev uid "ZONE1" (zone1det p) t).1.alerts dev uid "ZONE2" = 0 := by
    unfold activeCount
    rw [hf1]
    rfl
  rw [hz]
  simp [waterKey]

/-- A reading processed while a zone already has an active water alert
leaves that zone's set of active water alerts exactly as it was. -/
theorem handleSensorReading_no_duplicate_zone1 (db : DB) (o : SROracle) (dev uid : String)
    (p : Payload) (t : String)
    (hne : db.alerts.filter (waterKey dev uid "ZONE1") ≠ []) :
    (handleSensorReading db o dev uid p t).1.alerts.filter (waterKey dev uid "ZONE1") =
      db.alerts.filter (waterKey dev uid "ZONE1") := by
  cases hro : o.readingInsertOk with
  | false => simp [handleSensorReading, hro]
  | true =>
    simp only [handleSensorReading, hro, Bool.not_true, Bool.false_eq_true, if_false]
    have hs1 : (waterAlertStep
        { db with sensor_readings := db.sensor_readings ++ [buildSensorReading dev uid p t] }
        o.check1Ok o.insert1Ok dev uid "ZONE1" (zone1det p) t).1.alerts = db.alerts := by
      rcases waterAlertStep_alerts_spec
          { db with sensor_readings := db.sensor_readings ++ [buildSensorReading dev uid p t] }
          o.check1Ok o.insert1Ok dev uid "ZONE1" (zone1det p) t with h | ⟨hf, h⟩
      · exact h
      · exact absurd hf hne
    have hother := waterAlertStep_filter_other
      (waterAlertStep
        { db with sensor_readings := db.sensor_readings ++ [buildSensorReading dev uid p t] }
        o.check1Ok o.insert1Ok dev uid "ZONE1" (zone1det p) t).1
      o.check2Ok o.insert2Ok dev uid "ZONE2" (zone2det p) t dev uid "ZONE1" (by simp)
    rw [hother, hs1]

/-- Symmetric statement for zone 2. -/
theorem handleSensorReading_no_duplicate_zone2 (db : DB) (o : SROracle) (dev uid : String)
    (p : Payload) (t : String)
    (hne : db.alerts.filter (waterKey dev uid "ZONE2") ≠ []) :
    (handleSensorReading db o dev uid p t).1.alerts.filter (waterKey dev uid "ZONE2") =
      db.alerts.filter (waterKey dev uid "ZONE2") := by
  cases hro : o.readingInsertOk with
  | false => simp [handleSensorReading, hro]
  | true =>
    simp only [handleSensorReading, hro, Bool.not_true, Bool.false_eq_true, if_false]
    have hother1 := waterAlertStep_filter_other
      { db with sensor_readings := db.sensor_readings ++ [buildSensorReading dev uid p t] }
      o.check1Ok o.insert1Ok dev uid "ZONE1" (zone1det p) t dev uid "ZONE2" (by simp)
    have hs2 : (waterAlertStep
        (waterAlertStep
          { db with sensor_readings := db.sensor_readings ++ [buildSensorReading dev uid p t] }
          o.check1Ok o.insert1Ok dev uid "ZONE1" (zone1det p) t).1
        o.check2Ok o.insert2Ok dev uid "ZONE2" (zone2det p) t).1.alerts =
        (waterAlertStep
          { db with sensor_readings := db.sensor_readings ++ [buildSensorReading dev uid p t] }
          o.check1Ok o.insert1Ok dev uid "ZONE1" (zone1det p) t).1.alerts := by
      rcases waterAlertStep_alerts_spec
          (waterAlertStep
            { db with sensor_readings := db.sensor_readings ++ [buildSensorReading dev uid p t] }
            o.check1Ok o.insert1Ok dev uid "ZONE1" (zone1det p) t).1
          o.check2Ok o.insert2Ok dev uid "ZONE2" (zone2det p) t with h | ⟨hf, h⟩
      · exact h
      · rw [hother1] at hf
        exact absurd hf hne
    rw [hs2, hother1]

/-- C3: (1) any sequence of sensor-reading and alert-cleared messages
preserves the invariant of at most one active `WATER_DETECTED` alert per
(device, user, zone); (2) a reading that finds an active alert for a
zone leaves that zone's active-alert set unchanged (no duplicate row);
(3) a clear whose filters cover the zone deactivates its active alert;
(4) a subsequent reading with the zone detected then inserts exactly one
fresh active alert. -/
theorem water_alert_lifecycle_spec :
    (∀ (db : DB) (ops : List SensorOp), WaterInv db → WaterInv (processSensorOps db ops)) ∧
    (∀ (db : DB) (o : SROracle) (dev uid : String) (p : Payload) (t : String),
      db.alerts.filter (waterKey dev uid "ZONE1") ≠ [] →
      (handleSensorReading db o dev uid p t).1.alerts.filter (waterKey dev uid "ZONE1") =
        db.alerts.filter (waterKey dev uid "ZONE1")) ∧
    (∀ (db : DB) (o : SROracle) (dev uid : String) (p : Payload) (t : String),
      db.alerts.filter (waterKey dev uid "ZONE2") ≠ [] →
      (handleSensorReading db o dev uid p t).1.alerts.filter (waterKey dev uid "ZONE2") =
        db.alerts.filter (waterKey dev uid "ZONE2")) ∧
    (∀ (db : DB) (dev uid : String) (p : Payload) (t zone : String),
      (jsStrOr p.alert p.alertType = none ∨
        jsStrOr p.alert p.alertType = some "WATER_DETECTED") →
      (jsStrOrNull p.sensor = none ∨ jsStrOrNull p.sensor = some zone) →
      activeCount (handleAlertCleared db true dev uid p t).1.alerts dev uid zone = 0) ∧
    (∀ (db : DB) (o : SROracle) (dev uid : String) (p : Payload) (t : String),
      zone1det p = true → activeCount db.alerts dev uid "ZONE1" = 0 →
      o.readingInsertOk = true → o.check1Ok = true → o.insert1Ok = true →
      activeCount (handleSensorReading db o dev uid p t).1.alerts dev uid "ZONE1" = 1) ∧
    (∀ (db : DB) (o : SROracle) (dev uid : String) (p : Payload) (t : String),
      zone2det p = true → activeCount db.alerts dev uid "ZONE2" = 0 →
      o.readingInsertOk = true → o.check2Ok = true → o.insert2Ok = true →
      activeCount (handleSensorReading db o dev uid p t).1.alerts dev uid "ZONE2" = 1) := by
  refine ⟨?_, handleSensorReading_no_duplicate_zone1, handleSensorReading_no_duplicate_zone2,
    handleAlertCleared_zero, handleSensorReading_rearm_zone1, handleSensorReading_rearm_zone2⟩
  intro db ops h
  induction ops generalizing db with
  | nil => exact h
  | cons op ops ih =>
    have hstep : WaterInv (applySensorOp db op) := by
      cases op with
      | reading o dev uid p t => exact handleSensorReading_WaterInv db o dev uid p t h
      | cleared ok dev uid p t => exact handleAlertCleared_WaterInv db ok dev uid p t h
    exact ih (applySensorOp db op) hstep

/-- Witness for `water_alert_lifecycle_spec`: starting from an empty
database, a reading with zone 1 flooded creates one active alert, a
second identical reading leaves the zone's active alerts unchanged, an
explicit clear zeroes them, and the next flooded reading creates exactly
one fresh active alert again. -/
theorem water_alert_lifecycle_spec_witness :
    WaterInv (processSensorOps {}
      [.reading {} "D" "U" { water := some [600, 0, 0, 0] } "T1",
        .reading {} "D" "U" { water := some [600, 0, 0, 0] } "T2",
        .cleared true "D" "U" { alert := some "WATER_DETECTED", sensor := some "ZONE1" } "T3",
        .reading {} "D" "U" { water := some [600, 0, 0, 0] } "T4"]) ∧
    activeCount (handleSensorReading {} {} "D" "U"
        { water := some [600, 0, 0, 0] } "T1").1.alerts "D" "U" "ZONE1" = 1 ∧
    (handleSensorReading
        (handleSensorReading {} {} "D" "U" { water := some [600, 0, 0, 0] } "T1").1
        {} "D" "U" { water := some [600, 0, 0, 0] } "T2").1.alerts.filter
          (waterKey "D" "U" "ZONE1") =
      (handleSensorReading {} {} "D" "U"
        { water := some [600, 0, 0, 0] } "T1").1.alerts.filter (waterKey "D" "U" "ZONE1") ∧
    activeCount (handleAlertCleared
        (handleSensorReading {} {} "D" "U" { water := some [600, 0, 0, 0] } "T1").1
        true "D" "U"
        { alert := some "WATER_DETECTED", sensor := some "ZONE1" } "T3").1.alerts
      "D" "U" "ZONE1" = 0 ∧
    activeCount (handleSensorReading {} {} "D" "U"
        { water := some [0, 0, 501, 0] } "T1").1.alerts "D" "U" "ZONE2" = 1 := by
  refine ⟨water_alert_lifecycle_spec.1 {} _ ?_,
    water_alert_lifecycle_spec.2.2.2.2.1 {} {} "D" "U" { water := some [600, 0, 0, 0] } "T1"
      (by decide) rfl rfl rfl rfl,
    water_alert_lifecycle_spec.2.1 _ {} "D" "U" { water := some [600, 0, 0, 0] } "T2"
      (by decide),
    water_alert_lifecycle_spec.2.2.2.1 _ "D" "U"
      { alert := some "WATER_DETECTED", sensor := some "ZONE1" } "T3" "ZONE1"
      (Or.inr (by decide)) (Or.inr (by decide)),
    water_alert_lifecycle_spec.2.2.2.2.2 {} {} "D" "U" { water := some [0, 0, 501, 0] } "T1"
      (by decide) rfl rfl rfl rfl⟩
  intro dev uid zone
  simp [activeCount]

/-- Replacing the value stored under a key leaves a lookup of that key
defined exactly when it was defined, with the new value. -/
theorem regGet_map_replace (m : Registry) (u : String) (conns2 : List Nat) :
    regGet (m.map (fun p => if p.1 == u then (u, conns2) else p)) u =
      (regGet m u).map (fun _ => conns2) := by
  induction m with
  | nil => rfl
  | cons p ps ih =>
    cases hp : p.1 == u with
    | true =>
      have hpe : p.1 = u := by simpa using hp
      simp [regGet, hp, hpe]
    | false =>
      simpa [regGet, hp] using ih

/-- Removing every entry of a key makes lookups of that key fail. -/
theorem regGet_filter_self (m : Registry) (u : String) :
    regGet (m.filter (fun p => !(p.1 == u))) u = none := by
  induction m with
  | nil => rfl
  | cons p ps ih =>
    cases hp : p.1 == u with
    | true => simpa [List.filter_cons, hp] using ih
    | false => simpa [regGet, List.filter_cons, hp] using ih

/-- Replacing the value stored under one key does not affect lookups of
other keys. -/
theorem regGet_map_replace_other (m : Registry) (u : String) (conns2 : List Nat)
    (u2 : String) (hne : u2 ≠ u) :
    regGet (m.map (fun p => if p.1 == u then (u, conns2) else p)) u2 = regGet m u2 := by
  induction m with
  | nil => rfl
  | cons p ps ih =>
    cases hp : p.1 == u with
    | true =>
      have hpe : p.1 = u := by simpa using hp
      have hu : (u == u2) = false := by simpa using fun h => hne h.symm
      have hp2 : (p.1 == u2) = false := by
        rw [hpe]
        exact hu
      simpa [regGet, hp, hpe, hu, hp2] using ih
    | false =>
      cases hp2 : p.1 == u2 with
      | true => simp [regGet, hp, hp2]
      | false => simpa [regGet, hp, hp2] using ih

/-- Deleting an entire key does not affect lookups of other keys. -/
theorem regGet_filter_other (m : Registry) (u : String) (u2 : String) (hne : u2 ≠ u) :
    regGet (m.filter (fun p => !(p.1 == u))) u2 = regGet m u2 := by
  induction m with
  | nil => rfl
  | cons p ps ih =>
    cases hp : p.1 == u with
    | true =>
      have hpe : p.1 = u := by simpa using hp
      have hp2 : (p.1 == u2) = false := by
        rw [hpe]
        simpa using fun h => hne h.symm
      simpa [regGet, List.filter_cons, hp, hp2] using ih
    | false =>
      cases hp2 : p.1 == u2 with
      | true => simp [regGet, List.filter_cons, hp, hp2]
      | false => simpa [regGet, List.filter_cons, hp, hp2] using ih

/-- Registration preserves the no-empty-entry invariant. -/
theorem registerClient_NoEmptyEntry (m : Registry) (u : String) (ws : Nat)
    (h : NoEmptyEntry m) : NoEmptyEntry (registerClient m u ws) := by
  cases hg : regGet m u with
  | none =>
    have hD : registerClient m u ws = m ++ [(u, [ws])] := by
      simp [registerClient, hg]
    rw [hD]
    intro p hp
    rcases List.mem_append.mp hp with hp | hp
    · exact h p hp
    · rcases List.mem_singleton.mp hp with rfl
      simp
  | some conns =>
    have hD : registerClient m u ws =
        m.map (fun p => if p.1 == u then (u, conns ++ [ws]) else p) := by
      simp [registerClient, hg]
    rw [hD]
    intro p hp
    rcases List.mem_map.mp hp with ⟨q, hq, rfl⟩
    by_cases hq1 : q.1 == u
    · simp [hq1]
    · simp only [hq1, Bool.false_eq_true, if_false]
      exact h q hq

/-- Disconnection preserves the no-empty-entry invariant. -/
theorem handleDisconnection_NoEmptyEntry (m : Registry) (u : String) (ws : Nat)
    (h : NoEmptyEntry m) : NoEmptyEntry (handleDisconnection m u ws) := by
  cases hg : regGet m u with
  | none =>
    have hD : handleDisconnection m u ws = m := by
      simp [handleDisconnection, hg]
    rw [hD]
    exact h
  | some conns =>
    cases hemp : conns.filter (fun x => !(x == ws)) == [] with
    | true =>
      have hD : handleDisconnection m u ws = m.filter (fun p => !(p.1 == u)) := by
        simp [handleDisconnection, hg, hemp]
      rw [hD]
      intro p hp
      exact h p (List.mem_of_mem_filter hp)
    | false =>
      have he : conns.filter (fun x => !(x == ws)) ≠ [] := by simpa using hemp
      have hD : handleDisconnection m u ws =
          m.map (fun p =>
            if p.1 == u then (u, conns.filter (fun x => !(x == ws))) else p) := by
        simp [handleDisconnection, hg, hemp]
      rw [hD]
      intro p hp
      rcases List.mem_map.mp hp with ⟨q, hq, rfl⟩
      by_cases hq1 : q.1 == u
      · rw [if_pos hq1]
        exact he
      · simp only [hq1, Bool.false_eq_true, if_false]
        exact h q hq

/-- Every WebSocket service event preserves the no-empty-entry
invariant of the registry. -/
theorem applyWsEvent_NoEmptyEntry (st : WsState) (e : WsEvent)
    (h : NoEmptyEntry st.clients) : NoEmptyEntry (applyWsEvent st e).clients := by
  have hclose : ∀ (st2 : WsState) (cid : Nat), NoEmptyEntry st2.clients →
      NoEmptyEntry (closeConn st2 cid).clients := by
    intro st2 cid h2
    unfold closeConn
    cases hfind : st2.conns.find? (fun c => c.id == cid) with
    | none => exact h2
    | some c => exact handleDisconnection_NoEmptyEntry _ _ _ h2
  cases e with
  | connect cid uid => exact registerClient_NoEmptyEntry _ _ _ h
  | pong cid => exact h
  | close cid => exact hclose st cid h
  | tick =>
    have hfold : ∀ (l : List ConnInfo) (st2 : WsState), NoEmptyEntry st2.clients →
        NoEmptyEntry ((l.foldl (fun acc c => closeConn acc c.id) st2)).clients := by
      intro l
      induction l with
      | nil => intro st2 h2; exact h2
      | cons c cs ih =>
        intro st2 h2
        exact ih _ (hclose st2 c.id h2)
    exact hfold (st.conns.filter (fun c => c.isAlive == false)) st h

/-- C9: on every connection close — a graceful close or a forced
termination at a liveness tick, both of which run
`_handleDisconnection` — the registry removes the connection from its
user's set and deletes the user's entry when the set becomes empty,
other users' entries are untouched, and consequently a registry built by
any sequence of connect, pong, close and heartbeat-tick events never
contains a user entry with an empty connection set. -/
theorem registry_disconnection_spec :
    (∀ (m : Registry) (u : String) (ws : Nat),
      regGet (handleDisconnection m u ws) u =
        (regGet m u).bind (fun conns =>
          if conns.filter (fun x => !(x == ws)) = [] then none
          else some (conns.filter (fun x => !(x == ws))))) ∧
    (∀ (m : Registry) (u : String) (ws : Nat) (u2 : String), u2 ≠ u →
      regGet (handleDisconnection m u ws) u2 = regGet m u2) ∧
    (∀ evs : List WsEvent, NoEmptyEntry (runWsEvents evs).clients) := by
  refine ⟨?_, ?_, ?_⟩
  · intro m u ws
    cases hg : regGet m u with
    | none =>
      have hD : handleDisconnection m u ws = m := by
        simp [handleDisconnection, hg]
      rw [hD, hg]
      rfl
    | some conns =>
      cases hemp : conns.filter (fun x => !(x == ws)) == [] with
      | true =>
        have he : conns.filter (fun x => !(x == ws)) = [] := by simpa using hemp
        have hD : handleDisconnection m u ws = m.filter (fun p => !(p.1 == u)) := by
          simp [handleDisconnection, hg, hemp]
        rw [hD, regGet_filter_self]
        show none = if List.filter (fun x => !(x == ws)) conns = [] then none
          else some (List.filter (fun x => !(x == ws)) conns)
        rw [if_pos he]
      | false =>
        have he : conns.filter (fun x => !(x == ws)) ≠ [] := by simpa using hemp
        have hD : handleDisconnection m u ws =
            m.map (fun p =>
              if p.1 == u then (u, conns.filter (fun x => !(x == ws))) else p) := by
          simp [handleDisconnection, hg, hemp]
        rw [hD, regGet_map_replace, hg]
        simp [he]
        rcases List.exists_mem_of_ne_nil _ he with ⟨x, hx⟩
        rcases List.mem_filter.mp hx with ⟨hxc, hxp⟩
        exact ⟨x, hxc, by simpa using hxp⟩
  · intro m u ws u2 hne
    cases hg : regGet m u with
    | none =>
      have hD : handleDisconnection m u ws = m := by
        simp [handleDisconnection, hg]
      rw [hD]
    | some conns =>
      cases hemp : conns.filter (fun x => !(x == ws)) == [] with
      | true =>
        have hD : handleDisconnection m u ws = m.filter (fun p => !(p.1 == u)) := by
          simp [handleDisconnection, hg, hemp]
        rw [hD]
        exact regGet_filter_other m u u2 hne
      | false =>
        have hD : handleDisconnection m u ws =
            m.map (fun p =>
              if p.1 == u then (u, conns.filter (fun x => !(x == ws))) else p) := by
          simp [handleDisconnection, hg, hemp]
        rw [hD]
        exact regGet_map_replace_other m u _ u2 hne
  · intro evs
    have : ∀ (st : WsState), NoEmptyEntry st.clients →
        NoEmptyEntry (evs.foldl applyWsEvent st).clients := by
      induction evs with
      | nil => intro st h; exact h
      | cons e es ih =>
        intro st h
        exact ih _ (applyWsEvent_NoEmptyEntry st e h)
    exact this { } (by intro p hp; cases hp)

/-- Witness for `registry_disconnection_spec`: closing one of two
connections leaves the other registered; closing the last connection
removes the user's entry; another user's entry survives. -/
theorem registry_disconnection_spec_witness :
    regGet (handleDisconnection [("U", [1, 2]), ("V", [3])] "U" 2) "U" = some [1] ∧
    regGet (handleDisconnection [("U", [1]), ("V", [3])] "U" 1) "U" = none ∧
    regGet (handleDisconnection [("U", [1]), ("V", [3])] "U" 1) "V" = some [3] := by
  refine ⟨?_, ?_, ?_⟩
  · have h := registry_disconnection_spec.1 [("U", [1, 2]), ("V", [3])] "U" 2
    rw [h]
    decide
  · have h := registry_disconnection_spec.1 [("U", [1]), ("V", [3])] "U" 1
    rw [h]
    decide
  · have h := registry_disconnection_spec.2.1 [("U", [1]), ("V", [3])] "U" 1 "V"
      (by decide)
    rw [h]
    decide

/-- C8: pairing a device owned by another user is rejected without any
storage mutation; pairing by the owner never inserts a row, returns the
existing row unchanged when no update is needed, and otherwise rewrites
only that row, setting the name exactly when a truthy differing name was
supplied and forcing the active flag only when the device was inactive;
pairing an unknown identifier creates exactly one row owned by the
requester. -/
theorem pairDevice_spec (db : DB) (o : PairOracle) (uid did : String)
    (name : Option String) (now : String) :
    (∀ d : Device, o.lookupOk = true →
      db.devices.filter (fun x => x.device_id == did) = [d] → d.user_id ≠ uid →
      pairDevice db o uid did name now = (db, .conflict)) ∧
    (∀ d : Device, o.lookupOk = true →
      db.devices.filter (fun x => x.device_id == did) = [d] → d.user_id = uid →
      pairNameUpd d name = none → d.is_active = true →
      pairDevice db o uid did name now = (db, .okExisting d)) ∧
    (∀ d : Device, o.lookupOk = true → o.updateOk = true →
      db.devices.filter (fun x => x.device_id == did) = [d] → d.user_id = uid →
      ¬(pairNameUpd d name = none ∧ d.is_active = true) →
      pairDevice db o uid did name now =
        ({ db with devices := db.devices.map (fun x => if x.id == d.id then pairUpdatedDevice d name else x) },
          .okUpdated (pairUpdatedDevice d name))) ∧
    (∀ (d : Device) (s : String),
      (pairNameUpd d (some s) = some s ∧ (pairUpdatedDevice d (some s)).name = s ∧
          s ≠ "" ∧ s ≠ d.name) ∨
      (pairNameUpd d (some s) = none ∧ (pairUpdatedDevice d (some s)).name = d.name ∧
          (s = "" ∨ s = d.name))) ∧
    (∀ d : Device,
      (pairUpdatedDevice d name).id = d.id ∧
      (pairUpdatedDevice d name).device_id = d.device_id ∧
      (pairUpdatedDevice d name).user_id = d.user_id ∧
      (pairUpdatedDevice d name).paired_at = d.paired_at ∧
      (pairUpdatedDevice d name).is_active = true ∧
      (d.is_active = true → (pairUpdatedDevice d name).is_active = d.is_active)) ∧
    (o.lookupOk = true → o.insertOk = true →
      db.devices.filter (fun x => x.device_id == did) = [] →
      ∃ nd : Device,
        pairDevice db o uid did name now =
          ({ db with devices := db.devices ++ [nd], nextDeviceId := db.nextDeviceId + 1 },
            .created nd) ∧
        nd.user_id = uid ∧ nd.device_id = did ∧ nd.is_active = true) := by
  refine ⟨?_, ?_, ?_, ?_, ?_, ?_⟩
  · intro d hlk hf hne
    have hb : (d.user_id == uid) = false := by simpa using hne
    simp [pairDevice, hlk, hf, hb]
  · intro d hlk hf hu hnu hia
    have hb : (d.user_id == uid) = true := by simpa using hu
    simp [pairDevice, hlk, hf, hb, hnu, hia]
  · intro d hlk hup hf hu hcond
    have hb : (d.user_id == uid) = true := by simpa using hu
    have hguard : (pairNameUpd d name == none && !(!d.is_active)) = false := by
      cases hnu : pairNameUpd d name == none with
      | false => simp [hnu]
      | true =>
        have h1 : pairNameUpd d name = none := by simpa using hnu
        cases hia : d.is_active with
        | true => exact absurd ⟨h1, hia⟩ hcond
        | false => simp [hnu, hia]
    simp [pairDevice, hlk, hf, hb, hguard, hup]
    intro h1
    cases hia : d.is_active with
    | true => exact absurd ⟨h1, hia⟩ hcond
    | false => rfl
  · intro d s
    by_cases h0 : s = ""
    · right
      simp [pairNameUpd, pairUpdatedDevice, h0]
    · by_cases h1 : s = d.name
      · right
        simp [pairNameUpd, pairUpdatedDevice, h0, h1]
      · left
        simp [pairNameUpd, pairUpdatedDevice, h0, h1]
  · intro d
    refine ⟨rfl, rfl, rfl, rfl, ?_, ?_⟩
    · cases hia : d.is_active <;> simp [pairUpdatedDevice, hia]
    · intro hia
      simp [pairUpdatedDevice, hia]
  · intro hlk hins hf
    refine ⟨⟨db.nextDeviceId, did, uid,
      (match name with
        | some s => if s == "" then "Device " ++ sliceLast4 did else s
        | none => "Device " ++ sliceLast4 did), true, now⟩, ?_, rfl, rfl, rfl⟩
    simp [pairDevice, hlk, hf, hins]

/-- Witness for `pairDevice_spec`: a device owned by `V` cannot be
re-paired by `U`; re-pairing by the owner with the same name answers
with the stored row and leaves the table alone; re-pairing an inactive
device re-activates exactly that row; pairing a fresh identifier inserts
one row for the requester. -/
theorem pairDevice_spec_witness :
    pairDevice { devices := [⟨0, "D", "V", "n", true, "t"⟩] } {} "U" "D" none "now" =
      ({ devices := [⟨0, "D", "V", "n", true, "t"⟩] }, .conflict) ∧
    pairDevice { devices := [⟨0, "D", "U", "n", true, "t"⟩] } {} "U" "D" (some "n") "now" =
      ({ devices := [⟨0, "D", "U", "n", true, "t"⟩] }, .okExisting ⟨0, "D", "U", "n", true, "t"⟩) ∧
    pairDevice { devices := [⟨0, "D", "U", "n", false, "t"⟩] } {} "U" "D" none "now" =
      ({ devices := [⟨0, "D", "U", "n", true, "t"⟩] },
        .okUpdated ⟨0, "D", "U", "n", true, "t"⟩) ∧
    (∃ nd : Device,
      pairDevice ({} : DB) {} "U" "D" none "now" =
        ({ devices := [nd], nextDeviceId := 1 }, .created nd) ∧
      nd.user_id = "U" ∧ nd.device_id = "D" ∧ nd.is_active = true) := by
  refine ⟨?_, ?_, ?_, ?_⟩
  · exact (pairDevice_spec { devices := [⟨0, "D", "V", "n", true, "t"⟩] } {} "U" "D"
      none "now").1 ⟨0, "D", "V", "n", true, "t"⟩ rfl (by decide) (by decide)
  · exact (pairDevice_spec { devices := [⟨0, "D", "U", "n", true, "t"⟩] } {} "U" "D"
      (some "n") "now").2.1 ⟨0, "D", "U", "n", true, "t"⟩ rfl (by decide) rfl (by decide) rfl
  · have h := (pairDevice_spec { devices := [⟨0, "D", "U", "n", false, "t"⟩] } {} "U" "D"
      none "now").2.2.1 ⟨0, "D", "U", "n", false, "t"⟩ rfl rfl (by decide) rfl
      (by intro hc; exact absurd hc.2 (by decide))
    rw [h]
    rfl
  · exact (pairDevice_spec ({} : DB) {} "U" "D" none "now").2.2.2.2.2 rfl rfl (by decide)

/-- A filter whose predicate fails nowhere on the list keeps every
element. -/
theorem filter_all_eq_self {α : Type} (p : α → Bool) (l : List α)
    (h : ∀ x ∈ l, p x = true) : l.filter p = l := by
  induction l with
  | nil => rfl
  | cons a as ih =>
    simp only [List.filter_cons, h a (List.mem_cons_self a as), if_true]
    rw [ih (fun x hx => h x (List.mem_cons_of_mem a hx))]

/-- An empty filter result means the predicate fails on every element. -/
theorem mem_of_filter_nil {α : Type} (p : α → Bool) (l : List α)
    (h : l.filter p = []) : ∀ x ∈ l, p x = false := by
  induction l with
  | nil => intro x hx; cases hx
  | cons a as ih =>
    cases hpa : p a with
    | true => simp [List.filter_cons, hpa] at h
    | false =>
      intro x hx
      rcases List.mem_cons.mp hx with rfl | hx
      · exact hpa
      · exact ih (by simpa [List.filter_cons, hpa] using h) x hx

/-- C10 (counterexample): when the delete from `alerts` fails and the
compensating delete of the archived copy also fails, the failed archive
leaves the copy in `archived_alerts` (and the alert row in place),
contradicting the claim that a failed archive leaves no copy. -/
theorem archiveAlert_double_failure_counterexample :
    (archiveAlert
        { alerts := [⟨7, "D", "U", some "WATER_DETECTED", some "ZONE1", some 1, true, none, "T"⟩] }
        { deleteOk := false, cleanupOk := false } "U" 7 "NOW").2 = .serverError ∧
    (archiveAlert
        { alerts := [⟨7, "D", "U", some "WATER_DETECTED", some "ZONE1", some 1, true, none, "T"⟩] }
        { deleteOk := false, cleanupOk := false } "U" 7 "NOW").1.alerts =
      [⟨7, "D", "U", some "WATER_DETECTED", some "ZONE1", some 1, true, none, "T"⟩] ∧
    (archiveAlert
        { alerts := [⟨7, "D", "U", some "WATER_DETECTED", some "ZONE1", some 1, true, none, "T"⟩] }
        { deleteOk := false, cleanupOk := false } "U" 7 "NOW").1.archived_alerts ≠ [] := by
  refine ⟨rfl, rfl, by decide⟩

/-- C10 (amended): on success the copy is in `archived_alerts` and the
original row is gone from `alerts`; when the delete from `alerts` fails,
a compensating delete of the copy is issued, and provided that
compensating delete succeeds (and no other archived row shares the id),
the failed archive leaves the alerts table untouched and no copy in
`archived_alerts`. -/
theorem archiveAlert_spec (db : DB) (o : ArchOracle) (uid : String) (alertId : Nat)
    (now : String) :
    (∀ a : Alert, o.fetchOk = true → o.insertOk = true → o.deleteOk = true →
      db.alerts.filter (fun x => x.id == alertId && x.user_id == uid) = [a] →
      archiveAlert db o uid alertId now =
        ({ db with
            alerts := db.alerts.filter (fun x => !(x.id == alertId && x.user_id == uid))
            archived_alerts := db.archived_alerts ++ [archiveCopy a now] },
          .archived)) ∧
    (∀ a : Alert, o.fetchOk = true → o.insertOk = true → o.deleteOk = false →
      o.cleanupOk = true →
      db.alerts.filter (fun x => x.id == alertId && x.user_id == uid) = [a] →
      db.archived_alerts.filter (fun x => x.id == alertId) = [] →
      archiveAlert db o uid alertId now = (db, .serverError)) := by
  constructor
  · intro a hfetch hins hdel hf
    simp [archiveAlert, hfetch, hf, hins, hdel]
  · intro a hfetch hins hdel hclean hf harch
    have hmem : a ∈ db.alerts.filter (fun x => x.id == alertId && x.user_id == uid) := by
      rw [hf]
      exact List.mem_singleton_self a
    have hpair : a.id = alertId ∧ a.user_id = uid := by
      simpa using (List.mem_filter.mp hmem).2
    have ha1 : (a.id == alertId) = true := by simpa using hpair.1
    have hE : (db.archived_alerts ++ [archiveCopy a now]).filter
        (fun x => !(x.id == alertId)) = db.archived_alerts := by
      rw [List.filter_append]
      have h1 : db.archived_alerts.filter (fun x => !(x.id == alertId)) =
          db.archived_alerts := by
        apply filter_all_eq_self
        intro x hx
        have hx2 := mem_of_filter_nil _ _ harch x hx
        simp [hx2]
      have h2 : ([archiveCopy a now] : List ArchivedAlert).filter
          (fun x => !(x.id == alertId)) = [] := by
        simp [List.filter_cons, archiveCopy, ha1]
      rw [h1, h2, List.append_nil]
    simp [archiveAlert, hfetch, hf, hins, hdel, hclean, hE]

/-- Witness for `archiveAlert_spec`: a successful archive moves the row,
and a failed delete with a successful compensation leaves the database
exactly as it was. -/
theorem archiveAlert_spec_witness :
    archiveAlert
        { alerts := [⟨7, "D", "U", some "WATER_DETECTED", some "ZONE1", some 1, true, none, "T"⟩] }
        {} "U" 7 "NOW" =
      ({ alerts := [], archived_alerts :=
          [archiveCopy ⟨7, "D", "U", some "WATER_DETECTED", some "ZONE1", some 1, true, none, "T"⟩ "NOW"] },
        .archived) ∧
    archiveAlert
        { alerts := [⟨7, "D", "U", some "WATER_DETECTED", some "ZONE1", some 1, true, none, "T"⟩] }
        { deleteOk := false } "U" 7 "NOW" =
      ({ alerts := [⟨7, "D", "U", some "WATER_DETECTED", some "ZONE1", some 1, true, none, "T"⟩] },
        .serverError) := by
  constructor
  · have h := (archiveAlert_spec
      { alerts := [⟨7, "D", "U", some "WATER_DETECTED", some "ZONE1", some 1, true, none, "T"⟩] }
      {} "U" 7 "NOW").1
      ⟨7, "D", "U", some "WATER_DETECTED", some "ZONE1", some 1, true, none, "T"⟩
      rfl rfl rfl (by decide)
    rw [h]
    rfl
  · exact (archiveAlert_spec
      { alerts := [⟨7, "D", "U", some "WATER_DETECTED", some "ZONE1", some 1, true, none, "T"⟩] }
      { deleteOk := false } "U" 7 "NOW").2
      ⟨7, "D", "U", some "WATER_DETECTED", some "ZONE1", some 1, true, none, "T"⟩
      rfl rfl rfl rfl (by decide) rfl

/-- Gateway batches hold at most 100 messages. -/
theorem chunkPush_length_le (msgs : List PushMsg) : ∀ ch ∈ chunkPush msgs, ch.length ≤ 100 := by
  induction msgs using chunkPush.induct with
  | case1 =>
    intro ch hch
    rw [chunkPush] at hch
    cases hch
  | case2 x xs ih =>
    intro ch hch
    rw [chunkPush] at hch
    rcases List.mem_cons.mp hch with rfl | hch
    · exact List.length_take_le 100 (x :: xs)
    · exact ih ch hch

/-- Chunking loses and reorders nothing. -/
theorem chunkPush_flatten (msgs : List PushMsg) : (chunkPush msgs).flatten = msgs := by
  induction msgs using chunkPush.induct with
  | case1 => rw [chunkPush]; rfl
  | case2 x xs ih =>
    rw [chunkPush, List.flatten_cons, ih, List.take_append_drop]

/-- A gateway that answers each message with one ticket, applied over
the chunks, answers the original message list pointwise. -/
theorem chunkPush_flatMap_map (msgs : List PushMsg) (f : PushMsg → PushTicket) :
    (chunkPush msgs).flatMap (fun ch => ch.map f) = msgs.map f := by
  induction msgs using chunkPush.induct with
  | case1 => rw [chunkPush]; rfl
  | case2 x xs ih =>
    rw [chunkPush]
    simp only [List.flatMap_cons, ih]
    rw [← List.map_append, List.take_append_drop]

/-- Deleting the named tokens one by one equals filtering out every
token named in the list. -/
theorem foldl_delete_eq_filter (inv : List String) (toks : List PushToken) :
    inv.foldl (fun acc tok => acc.filter (fun pt => !(pt.expo_push_token == tok))) toks =
      toks.filter (fun pt => !(inv.contains pt.expo_push_token)) := by
  induction inv generalizing toks with
  | nil => simp
  | cons t ts ih =>
    simp only [List.foldl_cons]
    rw [ih, List.filter_filter]
    congr 1
    funext pt
    rw [List.contains_cons]
    cases h1 : pt.expo_push_token == t <;> cases h2 : ts.contains pt.expo_push_token <;>
      simp [h1, h2]

/-- The alert handler never emits a push-dispatch effect. -/
theorem handleAlert_no_push (db : DB) (o : AlertOracle) (dev uid : String) (p : Payload)
    (t : String) :
    (handleAlert db o dev uid p t).2.filter Effect.isPushDispatch = [] := by
  cases ho : o.alertInsertOk <;>
    by_cases hp : (p.alert == some "GAS_LEAK_DETECTED") = true <;>
      cases hg : o.gasReadingInsertOk <;>
        simp [handleAlert, ho, hp, hg, Effect.isPushDispatch]

/-- The per-zone water-alert loop never emits a push-dispatch effect. -/
theorem waterAlertStep_no_push (db : DB) (c i : Bool) (dev uid zone : String)
    (det : Bool) (t : String) :
    (waterAlertStep db c i dev uid zone det t).2.filter Effect.isPushDispatch = [] := by
  cases hdet : det
  · simp [waterAlertStep, Effect.isPushDispatch]
  · cases hc : c
    · simp [waterAlertStep, Effect.isPushDispatch]
    · cases hf : db.alerts.filter (waterKey dev uid zone)
      · cases hi : i <;> simp [waterAlertStep, hf, hi, Effect.isPushDispatch]
      · simp [waterAlertStep, hf, Effect.isPushDispatch]

/-- The sensor-reading handler never emits a push-dispatch effect. -/
theorem handleSensorReading_no_push (db : DB) (o : SROracle) (dev uid : String)
    (p : Payload) (t : String) :
    (handleSensorReading db o dev uid p t).2.filter Effect.isPushDispatch = [] := by
  cases hro : o.readingInsertOk <;>
    simp [handleSensorReading, hro, List.filter_append, waterAlertStep_no_push,
      Effect.isPushDispatch]

/-- The whole telemetry router never emits a push-dispatch effect. -/
theorem handleTelemetry_no_push (db : DB) (o : TelOracle) (data : Envelope) :
    (handleTelemetry db o data).2.filter Effect.isPushDispatch = [] := by
  cases hok : o.deviceLookupOk
  · simp [handleTelemetry, hok]
  · cases hd : lookupDevice db data.deviceId with
    | none => simp [handleTelemetry, hok, hd]
    | some d =>
      cases hact : d.is_active
      · simp [handleTelemetry, hok, hd, hact]
      · simp only [handleTelemetry, hok, hd, hact, Bool.not_true, Bool.not_false,
          Bool.false_eq_true, if_false, if_true, List.filter_append]
        rw [show (([Effect.sendToUser d.user_id
            { deviceId := data.deviceId, messageType := data.messageType
              payload := data.payload, receivedAt := data.receivedAt }]).filter
            Effect.isPushDispatch) = [] from rfl, List.append_nil]
        split
        · exact handleAlert_no_push db o.alertO data.deviceId d.user_id data.payload
            data.receivedAt
        · cases hup : o.clearUpdateOk <;> simp [handleAlertCleared, hup]
        · exact handleSensorReading_no_push db o.srO data.deviceId d.user_id data.payload
            data.receivedAt
        · cases hup : o.powerInsertOk <;>
            simp [handlePowerStatus, hup, Effect.isPushDispatch]
        · rfl

/-- C6 (counterexample): a telemetry alert for an active device whose
user has a registered push token stores an alert row, yet neither the
alert handler nor the router ever invokes the push-notification
dispatcher — `sendPushNotificationToUser` has no caller in the
backend. -/
theorem ingestion_no_push_dispatch_counterexample :
    (handleAlert {} {} "D" "U" { alert := some "WATER_DETECTED" } "T").1.alerts ≠ [] ∧
    (handleAlert {} {} "D" "U"
        { alert := some "WATER_DETECTED" } "T").2.filter Effect.isPushDispatch = [] ∧
    (handleTelemetry
        { devices := [⟨0, "D", "U", "n", true, "t"⟩], push_tokens := [⟨"U", "tok"⟩] } {}
        ⟨"D", "alert", { alert := some "WATER_DETECTED" }, "T"⟩).2.filter
          Effect.isPushDispatch = [] := by
  refine ⟨by decide, rfl, rfl⟩

/-- C6 (amended): the ingestion path never invokes the notification
dispatcher; the dispatcher itself, when called for a user and an alert,
does nothing without stored tokens, and otherwise sends one message per
registered valid token carrying the title/body/priority formatted from
the static per-alert-type tables (with the generic fallbacks for
unrecognized types), batched in chunks of at most 100, and afterwards
deletes from storage exactly the tokens the gateway's error tickets
name. -/
theorem notification_dispatcher_spec :
    (∀ (db : DB) (o : AlertOracle) (dev uid : String) (p : Payload) (t : String),
      (handleAlert db o dev uid p t).2.filter Effect.isPushDispatch = []) ∧
    (∀ (db : DB) (o : TelOracle) (data : Envelope),
      (handleTelemetry db o data).2.filter Effect.isPushDispatch = []) ∧
    (∀ (db : DB) (isExpoToken : String → Bool) (gateway : List PushMsg → List PushTicket)
        (uid : String) (a : Alert),
      (getUserPushTokens db isExpoToken uid = [] →
        sendPushNotificationToUser db isExpoToken gateway uid a = (db, [], .noTokens)) ∧
      (getUserPushTokens db isExpoToken uid ≠ [] →
        (sendPushNotificationToUser db isExpoToken gateway uid a).2.1 =
          pushMessages (getUserPushTokens db isExpoToken uid) a ∧
        (sendPushNotificationToUser db isExpoToken gateway uid a).1.push_tokens =
          db.push_tokens.filter (fun pt => !((invalidTokensOf ((chunkPush (pushMessages (getUserPushTokens db isExpoToken uid) a)).flatMap gateway)).contains pt.expo_push_token)))) ∧
    (∀ msgs : List PushMsg, ∀ ch ∈ chunkPush msgs, ch.length ≤ 100) ∧
    (∀ msgs : List PushMsg, (chunkPush msgs).flatten = msgs) ∧
    (∀ (a : Alert) (ty : String), a.alert_type = some ty →
      (∀ ttl, alertTitle ty = some ttl → (formatAlertNotification a).title = ttl) ∧
      (alertTitle ty = none →
        (formatAlertNotification a).title = "⚠️ " ++ String.replace ty "_" " ") ∧
      (∀ pr, alertPriority ty = some pr → (formatAlertNotification a).priority = pr) ∧
      (alertPriority ty = none → (formatAlertNotification a).priority = "default")) := by
  refine ⟨handleAlert_no_push, handleTelemetry_no_push, ?_, chunkPush_length_le,
    chunkPush_flatten, ?_⟩
  · intro db isExpoToken gateway uid a
    constructor
    · intro h0
      simp [sendPushNotificationToUser, h0]
    · intro h0
      have hb : (getUserPushTokens db isExpoToken uid == []) = false := by simpa using h0
      constructor
      · simp [sendPushNotificationToUser, hb]
      · simp [sendPushNotificationToUser, hb, foldl_delete_eq_filter]
  · intro a ty hty
    refine ⟨?_, ?_, ?_, ?_⟩
    · intro ttl h
      simp [formatAlertNotification, hty, h]
    · intro h
      simp [formatAlertNotification, hty, h]
    · intro pr h
      simp [formatAlertNotification, hty, h]
    · intro h
      simp [formatAlertNotification, hty, h]

/-- Witness for `notification_dispatcher_spec` at concrete inputs: the
alert handler emits no dispatch; a dispatcher call for a user with two
tokens sends to both and deletes the one the gateway reports invalid. -/
theorem notification_dispatcher_spec_witness :
    (handleAlert {} {} "D" "U" { alert := some "GAS_LEAK_DETECTED" } "T").2.filter
        Effect.isPushDispatch = [] ∧
    (sendPushNotificationToUser
        { push_tokens := [⟨"U", "tok1"⟩, ⟨"U", "bad"⟩, ⟨"V", "tok2"⟩] }
        (fun _ => true)
        (fun ms => ms.map (fun m =>
          if m.recipient == "bad" then ⟨"error", some "bad"⟩ else ⟨"ok", none⟩))
        "U" ⟨7, "D", "U", some "WATER_DETECTED", some "ZONE1", some 1, true, none, "T"⟩).2.1 =
      pushMessages ["tok1", "bad"]
        ⟨7, "D", "U", some "WATER_DETECTED", some "ZONE1", some 1, true, none, "T"⟩ ∧
    (sendPushNotificationToUser
        { push_tokens := [⟨"U", "tok1"⟩, ⟨"U", "bad"⟩, ⟨"V", "tok2"⟩] }
        (fun _ => true)
        (fun ms => ms.map (fun m =>
          if m.recipient == "bad" then ⟨"error", some "bad"⟩ else ⟨"ok", none⟩))
        "U" ⟨7, "D", "U", some "WATER_DETECTED", some "ZONE1", some 1, true, none, "T"⟩).1.push_tokens =
      [⟨"U", "tok1"⟩, ⟨"V", "tok2"⟩] := by
  refine ⟨notification_dispatcher_spec.1 {} {} "D" "U"
    { alert := some "GAS_LEAK_DETECTED" } "T", ?_, ?_⟩
  · have h := ((notification_dispatcher_spec.2.2.1
      { push_tokens := [⟨"U", "tok1"⟩, ⟨"U", "bad"⟩, ⟨"V", "tok2"⟩] }
      (fun _ => true)
      (fun ms => ms.map (fun m =>
        if m.recipient == "bad" then ⟨"error", some "bad"⟩ else ⟨"ok", none⟩))
      "U" ⟨7, "D", "U", some "WATER_DETECTED", some "ZONE1", some 1, true, none, "T"⟩).2
      (by decide)).1
    rw [h]
    rfl
  · have h := ((notification_dispatcher_spec.2.2.1
      { push_tokens := [⟨"U", "tok1"⟩, ⟨"U", "bad"⟩, ⟨"V", "tok2"⟩] }
      (fun _ => true)
      (fun ms => ms.map (fun m =>
        if m.recipient == "bad" then ⟨"error", some "bad"⟩ else ⟨"ok", none⟩))
      "U" ⟨7, "D", "U", some "WATER_DETECTED", some "ZONE1", some 1, true, none, "T"⟩).2
      (by decide)).2
    rw [h]
    rw [show getUserPushTokens
        { push_tokens := [⟨"U", "tok1"⟩, ⟨"U", "bad"⟩, ⟨"V", "tok2"⟩] }
        (fun _ => true) "U" = ["tok1", "bad"] from rfl]
    rw [chunkPush_flatMap_map]
    rfl

end APN
